import Mathlib

/-!
Shallow embedding of the MPC lateral controller core
(`src/control/mpc_lateral_controller/src/mpc.cpp`) and verification of the
frozen claims about it.

Conventions of the embedding:
* C++ `double` is modelled by `ℚ` (the claims under study are structural /
  control-flow properties, not floating-point rounding properties).
* `Eigen::MatrixXd` is modelled by the flat function type `Mat := ℕ → ℕ → ℚ`
  together with explicit block-write / block-read / sized-multiplication
  operations, mirroring Eigen's `.block(...)` assignments in the source.
* Collaborator code that is not part of the repository sources under
  verification (MPCUtils helpers, the interpolation library, the vehicle-model
  plugins, the QP solver, the low-pass filters, the steering predictor) is
  modelled as capability parameters collected in `MPCEnv`, following the spec,
  which lists them as external collaborators consumed through interfaces.
* Member state of the `MPC` class that is read or written by `calculateMPC`
  is collected in `MPCState` and passed explicitly.
-/

namespace MPCV

/-! ## Definitions: the embedded data model and operations -/

/-- Flat rational matrix, mirroring `Eigen::MatrixXd` (entries outside the
allocated size are irrelevant and read as whatever the function returns). -/
def Mat : Type := ℕ → ℕ → ℚ

/-- Flat rational vector, mirroring `Eigen::VectorXd`. -/
def Vec : Type := ℕ → ℚ

/-- The zero matrix, mirroring `MatrixXd::Zero`. -/
def zeroMat : Mat := fun _ _ => 0

/-- The zero vector, mirroring `VectorXd::Zero`. -/
def zeroVec : Vec := fun _ => 0

/-- `M.block(r, c, h, w) = B`: overwrite the `h × w` block of `M` at row `r`,
column `c` with `B`, mirroring Eigen block assignment. -/
def setBlock (M : Mat) (r c h w : ℕ) (B : Mat) : Mat := fun i j =>
  if r ≤ i ∧ i < r + h ∧ c ≤ j ∧ j < c + w then B (i - r) (j - c) else M i j

/-- `M.block(r, c, h, w) += B`: add `B` into the `h × w` block of `M` at row
`r`, column `c`, mirroring Eigen block compound assignment. -/
def addBlock (M : Mat) (r c h w : ℕ) (B : Mat) : Mat := fun i j =>
  if r ≤ i ∧ i < r + h ∧ c ≤ j ∧ j < c + w then M i j + B (i - r) (j - c) else M i j

/-- Read the block of `M` anchored at row `r`, column `c` (the size is
implicit: entry `(i, j)` of the block is `M (r+i) (c+j)`). -/
def blockAt (M : Mat) (r c : ℕ) : Mat := fun i j => M (r + i) (c + j)

/-- Matrix product with explicit inner dimension `n`:
`(matMul A B n) i j = Σ_{k<n} A i k * B k j`. -/
def matMul (A B : Mat) (n : ℕ) : Mat := fun i j =>
  ∑ k ∈ Finset.range n, A i k * B k j

/-- Entrywise matrix sum. -/
def matAdd (A B : Mat) : Mat := fun i j => A i j + B i j

/-- Matrix transpose. -/
def matTrans (A : Mat) : Mat := fun i j => A j i

/-- `std::clamp(v, lo, hi)` as defined by the C++ standard library. -/
def clampD (v lo hi : ℚ) : ℚ := if v < lo then lo else if hi < v then hi else v

/-- A pose: planar position plus heading, the parts of
`geometry_msgs::Pose` the controller reads. -/
structure Pose where
  x : ℚ
  y : ℚ
  yaw : ℚ
deriving DecidableEq

/-- The parts of `nav_msgs::Odometry` the controller reads: the ego pose and
the longitudinal velocity `twist.twist.linear.x`. -/
structure Odom where
  pose : Pose
  vx : ℚ
deriving DecidableEq

/-- `SteeringReport`: the measured steering angle. -/
structure SteeringRep where
  steering_tire_angle : ℚ
deriving DecidableEq

/-- `MPCTrajectory`: parallel arrays of equal length
(x, y, yaw, velocity, curvature, smoothed curvature, relative time). -/
structure MPCTraj where
  x : List ℚ
  y : List ℚ
  yaw : List ℚ
  vx : List ℚ
  k : List ℚ
  smooth_k : List ℚ
  relative_time : List ℚ
deriving DecidableEq

/-- `MPCData`: what `MPC::getData` extracts for one cycle. -/
structure MPCData where
  nearest_idx : ℕ
  nearest_time : ℚ
  nearest_pose : Pose
  steer : ℚ
  predicted_steer : ℚ
  lateral_err : ℚ
  yaw_err : ℚ
deriving DecidableEq

/-- The vehicle-model variants selected by `modelName()` in the source
(`kinematics`, `kinematics_no_delay`, `dynamics`), plus the unrecognized
case the source only logs about. -/
inductive ModelKind where
  | kinematics
  | kinematics_no_delay
  | dynamics
  | unknown
deriving DecidableEq

/-- Per-step MPC weights returned by `getWeight(curvature)`. -/
structure MPCWeight where
  lat_error : ℚ
  heading_error : ℚ
  steering_input : ℚ
  heading_error_squared_vel : ℚ
  steering_input_squared_vel : ℚ
  lat_jerk : ℚ
  steer_rate : ℚ
  steer_acc : ℚ
deriving DecidableEq

/-- The configuration parameters of the controller read by the embedded
functions (`m_param`, `m_steer_lim`, `m_ctrl_period`, admissible errors,
model dimensions, terminal weights). -/
structure MPCCfg where
  prediction_horizon : ℕ
  prediction_dt : ℚ
  min_prediction_length : ℚ
  input_delay : ℚ
  zero_ff_steer_deg : ℚ
  acceleration_limit : ℚ
  velocity_time_constant : ℚ
  nominal_terminal_lat_error : ℚ
  nominal_terminal_heading_error : ℚ
  nominal_steer_rate : ℚ
  nominal_steer_acc : ℚ
  steer_lim : ℚ
  ctrl_period : ℚ
  admissible_position_error : ℚ
  admissible_yaw_error_rad : ℚ
  use_steer_prediction : Bool
  is_forward_shift : Bool
  ego_nearest_dist_threshold : ℚ
  ego_nearest_yaw_threshold : ℚ
  dimX : ℕ
  dimU : ℕ
  dimY : ℕ
  model_kind : ModelKind

/-- The QP problem handed to the solver capability:
`solve(H, f, A, lb, ub, lbA, ubA)`. -/
structure QPProblem where
  H : Mat
  f : Mat
  A : Mat
  lb : Mat
  ub : Mat
  lbA : Mat
  ubA : Mat

/-- The solver capability's answer: the raw solution vector plus whether it
contains a non-finite (NaN) component — `ℚ` has no NaN, so the black-box
solver model reports that flag explicitly and `executeOptimization` checks
it, mirroring `Uex.array().isNaN().any()`. -/
structure QPOut where
  Uex : Vec
  hasNaN : Bool

/-- External collaborator capabilities consumed by the controller, as the
spec lists them (nearest-pose search, interpolation, vehicle model, QP
solver, low-pass filter, steering predictor, velocity smoothing).
Each field is `Modelled from the spec:` an interface, because the
implementations live outside the sources under verification. -/
structure MPCEnv where
  /-- `MPCUtils::calcNearestPoseInterp`: soft-constrained nearest pose
  search; `none` models its failure return. Gives (pose, index, time). -/
  nearestPoseInterp : MPCTraj → Pose → ℚ → ℚ → Option (Pose × ℕ × ℚ)
  /-- `MPCUtils::calcLateralError(pose, nearest_pose)`. -/
  calcLateralError : Pose → Pose → ℚ
  /-- `tier4_autoware_utils::normalizeRadian`: wrap an angle to [-π, π]. -/
  normalizeRadian : ℚ → ℚ
  /-- `tier4_autoware_utils::calcDistance2d(pose, pose)`. -/
  calcDistance2d : Pose → Pose → ℚ
  /-- `tier4_autoware_utils::deg2rad`: degree-to-radian conversion (kept
  abstract: π is irrational, and no claim depends on its value). -/
  deg2rad : ℚ → ℚ
  /-- `SteeringPredictor::calcSteerPrediction` on its stored command list. -/
  calcSteerPrediction : List ℚ → ℚ
  /-- `SteeringPredictor::storeSteerCmd`. -/
  storeSteerCmd : List ℚ → ℚ → List ℚ
  /-- `interpolation::lerp(keys, values, t)`: `none` models the out-of-range
  exception caught during delay compensation. -/
  lerp : List ℚ → List ℚ → ℚ → Option ℚ
  /-- `MPCUtils::linearInterpMPCTrajectory(in_time, in_traj, out_time)`:
  `none` models its failure return. -/
  linearInterpMPCTraj : List ℚ → MPCTraj → List ℚ → Option MPCTraj
  /-- Vehicle model `calculateDiscreteMatrix(Ad, Bd, Cd, Wd, dt)` after
  `setVelocity(v)` and `setCurvature(k)`: returns (Ad, Bd, Cd, Wd). -/
  discreteMat : ℚ → ℚ → ℚ → Mat × Mat × Mat × Mat
  /-- Vehicle model `calculateReferenceInput(Uref)` after `setVelocity(v)`
  and `setCurvature(k)`: returns the `DIM_U × 1` reference input. -/
  refInput : ℚ → ℚ → Mat
  /-- `QPSolverInterface::solve`: `none` models solver failure. -/
  qpsolve : QPProblem → Option QPOut
  /-- `getWeight(curvature)`: curvature-indexed weight lookup. -/
  getWeight : ℚ → MPCWeight
  /-- Low-pass (Butterworth) filter capability with persistent state:
  `(output, new_state) = filter(state, input)`. -/
  lpfFilter : List ℚ → ℚ → ℚ × List ℚ
  /-- `motion_utils::findFirstNearestSegmentIndexWithSoftConstraints`. -/
  nearestSegIdx : MPCTraj → Pose → ℕ
  /-- `motion_utils::findFirstNearestIndexWithSoftConstraints`. -/
  nearestIdxSoft : MPCTraj → Pose → ℕ
  /-- `MPCUtils::dynamicSmoothingVelocity(seg_idx, v_ego, a_lim, tau, traj)`. -/
  dynSmooth : ℕ → ℚ → ℚ → ℚ → MPCTraj → MPCTraj
  /-- `MPCUtils::calcDistance2d(traj, idx1, idx2)`: distance between two
  trajectory points. -/
  segDist : MPCTraj → ℕ → ℕ → ℚ

/-- Member state of the `MPC` object read or written by `calculateMPC`. -/
structure MPCState where
  /-- `m_input_buffer`: FIFO of previously issued steering commands. -/
  input_buffer : List ℚ
  /-- `m_raw_steer_cmd_prev`: most recent raw optimizer output. -/
  raw_steer_cmd_prev : ℚ
  /-- `m_raw_steer_cmd_pprev`: second most recent raw optimizer output. -/
  raw_steer_cmd_pprev : ℚ
  /-- `m_lateral_error_prev` (dynamics model only). -/
  lateral_error_prev : ℚ
  /-- `m_yaw_error_prev` (dynamics model only). -/
  yaw_error_prev : ℚ
  /-- `m_lpf_steering_cmd` internal state. -/
  lpf_steering_cmd : List ℚ
  /-- `m_lpf_lateral_error` internal state. -/
  lpf_lateral_error : List ℚ
  /-- `m_lpf_yaw_error` internal state. -/
  lpf_yaw_error : List ℚ
  /-- `m_steering_predictor` stored commands. -/
  steering_predictor : List ℚ
  /-- `m_reference_trajectory`. -/
  reference_trajectory : MPCTraj
  /-- `mpc_traj_raw`. -/
  traj_raw : MPCTraj
deriving DecidableEq

/-- The steering command produced by one successful cycle. -/
structure CtrlCmd where
  steering_tire_angle : ℚ
  steering_tire_rotation_rate : ℚ
deriving DecidableEq

/-- `MPC::getData` (mpc.cpp:273-318): nearest-pose lookup, error extraction
and the three admissibility checks; `none` is the failure return. -/
def getData (env : MPCEnv) (cfg : MPCCfg) (traj : MPCTraj)
    (current_steer : SteeringRep) (kin : Odom) (pred_state : List ℚ) :
    Option MPCData :=
  match env.nearestPoseInterp traj kin.pose cfg.ego_nearest_dist_threshold
      cfg.ego_nearest_yaw_threshold with
  | none => none
  | some (npose, nidx, ntime) =>
    let steer := current_steer.steering_tire_angle
    let lat_err := env.calcLateralError kin.pose npose
    let yaw_err := env.normalizeRadian (kin.pose.yaw - npose.yaw)
    let pred_steer := env.calcSteerPrediction pred_state
    let dist_err := env.calcDistance2d kin.pose npose
    if cfg.admissible_position_error < dist_err then none
    else if cfg.admissible_yaw_error_rad < |yaw_err| then none
    else
      let max_prediction_time :=
        cfg.min_prediction_length / ((cfg.prediction_horizon : ℚ) - 1)
      let end_time := ntime + cfg.input_delay + cfg.ctrl_period + max_prediction_time
      if (traj.relative_time.getLast?.getD 0) < end_time then none
      else some { nearest_idx := nidx, nearest_time := ntime, nearest_pose := npose,
                  steer := steer, predicted_steer := pred_steer,
                  lateral_err := lat_err, yaw_err := yaw_err }

/-- `MPC::resampleMPCTrajectoryByTime` (mpc.cpp:320-333): sample times
`ts + i·dt` for `i < N` and linearly interpolate the trajectory there. -/
def resampleMPCTrajectoryByTime (env : MPCEnv) (cfg : MPCCfg)
    (ts prediction_dt : ℚ) (input : MPCTraj) : Option MPCTraj :=
  let mpc_time_v := (List.range cfg.prediction_horizon).map
    (fun i => ts + (i : ℚ) * prediction_dt)
  env.linearInterpMPCTraj input.relative_time input mpc_time_v

/-- `MPC::getInitialState` (mpc.cpp:335-363): build the error-state vector;
for the dynamics model this also mutates the previous-error memory and the
error low-pass filters, which is mirrored in the returned state. -/
def getInitialState (env : MPCEnv) (cfg : MPCCfg) (st : MPCState)
    (data : MPCData) : Vec × MPCState :=
  let lat_err := data.lateral_err
  let steer := if cfg.use_steer_prediction then data.predicted_steer else data.steer
  let yaw_err := data.yaw_err
  match cfg.model_kind with
  | .kinematics =>
      (fun i => if i = 0 then lat_err else if i = 1 then yaw_err
                else if i = 2 then steer else 0, st)
  | .kinematics_no_delay =>
      (fun i => if i = 0 then lat_err else if i = 1 then yaw_err else 0, st)
  | .dynamics =>
      let dlat0 := (lat_err - st.lateral_error_prev) / cfg.ctrl_period
      let dyaw0 := (yaw_err - st.yaw_error_prev) / cfg.ctrl_period
      let st1 := { st with lateral_error_prev := lat_err, yaw_error_prev := yaw_err }
      let fl := env.lpfFilter st1.lpf_lateral_error dlat0
      let fy := env.lpfFilter st1.lpf_yaw_error dyaw0
      (fun i => if i = 0 then lat_err else if i = 1 then fl.1
                else if i = 2 then yaw_err else if i = 3 then fy.1 else 0,
       { st1 with lpf_lateral_error := fl.2, lpf_yaw_error := fy.2 })
  | .unknown => (zeroVec, st)

/-- The per-input loop body of `MPC::updateStateForDelayCompensation`
(mpc.cpp:379-397): interpolate curvature and velocity at the buffered
input's time, step `x ← Ad·x + Bd·u + Wd`; `none` on interpolation failure. -/
def delayCompLoop (env : MPCEnv) (cfg : MPCCfg) (traj : MPCTraj) :
    List ℚ → ℚ → Vec → Option Vec
  | [], _, x => some x
  | u :: rest, t, x =>
    match env.lerp traj.relative_time traj.k t, env.lerp traj.relative_time traj.vx t with
    | some k, some v =>
      let M := env.discreteMat v k cfg.ctrl_period
      let Ad := M.1
      let Bd := M.2.1
      let Wd := M.2.2.2
      let ud : Vec := fun i => if i = 0 then u else 0
      let xnext : Vec := fun i =>
        (∑ j ∈ Finset.range cfg.dimX, Ad i j * x j) +
        (∑ j ∈ Finset.range cfg.dimU, Bd i j * ud j) + Wd i 0
      delayCompLoop env cfg traj rest (t + cfg.ctrl_period) xnext
    | _, _ => none

/-- `MPC::updateStateForDelayCompensation` (mpc.cpp:365-399): roll the
initial state through the buffered input history. -/
def updateStateForDelayCompensation (env : MPCEnv) (cfg : MPCCfg)
    (traj : MPCTraj) (start_time : ℚ) (x0_orig : Vec)
    (input_buffer : List ℚ) : Option Vec :=
  delayCompLoop env cfg traj input_buffer start_time x0_orig

/-- `MPC::applyVelocityDynamicsFilter` (mpc.cpp:401-423): velocity smoothing
from the nearest segment, then append a stop point 100 s in the future. -/
def applyVelocityDynamicsFilter (env : MPCEnv) (cfg : MPCCfg)
    (input : MPCTraj) (kin : Odom) : MPCTraj :=
  if input.x.length = 0 then input
  else
    let nearest_seg_idx := env.nearestSegIdx input kin.pose
    let output := env.dynSmooth nearest_seg_idx kin.vx cfg.acceleration_limit
      cfg.velocity_time_constant input
    { x := output.x ++ [output.x.getLast?.getD 0],
      y := output.y ++ [output.y.getLast?.getD 0],
      yaw := output.yaw ++ [output.yaw.getLast?.getD 0],
      vx := output.vx ++ [0],
      k := output.k ++ [output.k.getLast?.getD 0],
      smooth_k := output.smooth_k ++ [output.smooth_k.getLast?.getD 0],
      relative_time := output.relative_time ++ [output.relative_time.getLast?.getD 0 + 100] }

/-- The walk of `MPC::getPredictionDeltaTime` (mpc.cpp:1032-1048): starting
after the nearest index, accumulate segment distances until
`min_prediction_length` is crossed, then linearly interpolate the crossing
time (with the last point's artificially extended time backed out); if the
threshold is never crossed, fall back to the final time minus the
extension. -/
def targetTimeWalk (env : MPCEnv) (cfg : MPCCfg) (input : MPCTraj) :
    List ℕ → ℚ → ℚ
  | [], _ => input.relative_time.getLast?.getD 0 - 100
  | i :: rest, sum_dist =>
    let segment_dist := env.segDist input i (i - 1)
    let sum2 := sum_dist + segment_dist
    if cfg.min_prediction_length < sum2 then
      let prev_sum_dist := sum2 - segment_dist
      let ratio := (cfg.min_prediction_length - prev_sum_dist) / segment_dist
      let relative_time_at_i :=
        if i = input.relative_time.length - 1 then input.relative_time.getD i 0 - 100
        else input.relative_time.getD i 0
      input.relative_time.getD (i - 1) 0 +
        (relative_time_at_i - input.relative_time.getD (i - 1) 0) * ratio
    else targetTimeWalk env cfg input rest sum2

/-- `MPC::getPredictionDeltaTime` (mpc.cpp:1023-1055): the per-step dt is
`(target_time − start_time)/(N−1)` floored at the configured
`prediction_dt`. -/
def getPredictionDeltaTime (env : MPCEnv) (cfg : MPCCfg) (start_time : ℚ)
    (input : MPCTraj) (kin : Odom) : ℚ :=
  let nearest_idx := env.nearestIdxSoft input kin.pose
  let idxs := List.range' (nearest_idx + 1)
    (input.relative_time.length - (nearest_idx + 1))
  let target_time := targetTimeWalk env cfg input idxs 0
  let dt := (target_time - start_time) / ((cfg.prediction_horizon : ℚ) - 1)
  max dt cfg.prediction_dt

/-- Row 0 of the literal 50 x 50 matrix `H` hardcoded in `MPC::executeOptimization` (mpc.cpp:566-615). -/
def hardHrow0 : List ℚ := [2.40456, -0.0701004, 0.00835596, 0.00376653, 0.00416329, 0.00476199, 0.00566342, 0.00681013, 0.00800993, 0.00918759, 0.0103419, 0.0114735, 0.012585, 0.0136832, 0.0147798, 0.0158851, 0.0169949, 0.0181167, 0.0192294, 0.0203016, 0.0213104, 0.0222229, 0.0230208, 0.0236764, 0.0241627, 0.0244562, 0.0245311, 0.024381, 0.0240317, 0.023515, 0.0228526, 0.0220592, 0.0211448, 0.0201169, 0.0189824, 0.0177483, 0.016423, 0.0150168, 0.0135421, 0.0120153, 0.0104558, 0.0088874, 0.00733827, 0.00584136, 0.00443384, 0.00315622, 0.00205059, 0.00115742, 0.000509977, 0.000125592]

/-- Row 1 of the literal 50 x 50 matrix `H` hardcoded in `MPC::executeOptimization` (mpc.cpp:566-615). -/
def hardHrow1 : List ℚ := [-0.0701004, 1.11298, -0.0552805, 0.00874947, 0.00430868, 0.00492837, 0.0058614, 0.00704832, 0.00829024, 0.00950934, 0.0107044, 0.0118759, 0.0130269, 0.014164, 0.0152998, 0.0164446, 0.0175941, 0.0187562, 0.0199091, 0.0210201, 0.0220656, 0.0230115, 0.023839, 0.0245191, 0.025024, 0.0253293, 0.0254083, 0.0252543, 0.0248939, 0.02436, 0.0236752, 0.0228547, 0.0219087, 0.020845, 0.0196706, 0.018393, 0.0170208, 0.0155645, 0.0140371, 0.0124554, 0.0108398, 0.00921461, 0.00760922, 0.00605773, 0.00459867, 0.00327405, 0.00212753, 0.00120111, 0.000529376, 0.000130406]

/-- Row 2 of the literal 50 x 50 matrix `H` hardcoded in `MPC::executeOptimization` (mpc.cpp:566-615). -/
def hardHrow2 : List ℚ := [0.00835596, -0.0552805, 1.11334, -0.0548076, 0.00938311, 0.00518349, 0.00616493, 0.00741345, 0.0087199, 0.0100024, 0.0112598, 0.0124925, 0.0137037, 0.0149005, 0.0160959, 0.017301, 0.0185112, 0.0197348, 0.0209488, 0.022119, 0.0232203, 0.024217, 0.0250891, 0.0258063, 0.0263393, 0.0266622, 0.0267469, 0.0265864, 0.0262087, 0.0256483, 0.024929, 0.0240666, 0.023072, 0.0219533, 0.020718, 0.0193738, 0.0179298, 0.016397, 0.0147892, 0.0131239, 0.0114226, 0.00971106, 0.00802008, 0.00638561, 0.00484827, 0.00345233, 0.00224383, 0.00126708, 0.000558621, 0.000137654]

/-- Row 3 of the literal 50 x 50 matrix `H` hardcoded in `MPC::executeOptimization` (mpc.cpp:566-615). -/
def hardHrow3 : List ℚ := [0.00376653, 0.00874947, -0.0548076, 1.11394, -0.0540364, 0.0104231, 0.00662668, 0.00796888, 0.00937343, 0.0107524, 0.0121044, 0.0134301, 0.0147327, 0.0160201, 0.0173061, 0.0186026, 0.0199048, 0.0212216, 0.0225282, 0.0237879, 0.0249737, 0.0260471, 0.0269868, 0.02776, 0.028335, 0.0286842, 0.0287774, 0.0286066, 0.0282022, 0.0276011, 0.0268289, 0.0259027, 0.0248341, 0.0236318, 0.0223038, 0.0208584, 0.0193054, 0.0176565, 0.0159266, 0.0141347, 0.0123036, 0.0104612, 0.00864067, 0.00688068, 0.00522496, 0.00372124, 0.00241914, 0.00136645, 0.000602627, 0.000148548]

/-- Row 4 of the literal 50 x 50 matrix `H` hardcoded in `MPC::executeOptimization` (mpc.cpp:566-615). -/
def hardHrow4 : List ℚ := [0.00416329, 0.00430868, 0.00938311, -0.0540364, 1.11491, -0.0527481, 0.0121771, 0.00880958, 0.0103626, 0.0118874, 0.0133826, 0.0148488, 0.0162898, 0.0177139, 0.0191368, 0.0205715, 0.0220127, 0.0234702, 0.0249166, 0.0263114, 0.0276246, 0.0288138, 0.0298552, 0.0307126, 0.0313509, 0.0317395, 0.0318448, 0.0316582, 0.0312129, 0.03055, 0.0296976, 0.0286747, 0.0274939, 0.026165, 0.0246967, 0.0230982, 0.0213803, 0.0195561, 0.0176418, 0.0156585, 0.0136316, 0.0115917, 0.00957567, 0.00762634, 0.00579217, 0.00412601, 0.0026829, 0.00151587, 0.000668762, 0.000164911]

/-- Row 5 of the literal 50 x 50 matrix `H` hardcoded in `MPC::executeOptimization` (mpc.cpp:566-615). -/
def hardHrow5 : List ℚ := [0.00476199, 0.00492837, 0.00518349, 0.0104231, -0.0527481, 1.11657, -0.0505271, 0.0149294, 0.0118548, 0.0135997, 0.0153108, 0.0169889, 0.0186383, 0.0202687, 0.0218979, 0.0235408, 0.0251913, 0.0268608, 0.0285178, 0.0301159, 0.031621, 0.0329843, 0.0341787, 0.0351626, 0.035896, 0.0363435, 0.0364668, 0.0362558, 0.0357487, 0.0349922, 0.0340185, 0.0328494, 0.0314993, 0.0299794, 0.0282995, 0.0264702, 0.0245038, 0.0224152, 0.0202231, 0.0179515, 0.0156295, 0.0132923, 0.010982, 0.00874769, 0.00664496, 0.00473444, 0.00307927, 0.00174033, 0.000768069, 0.00018947]

/-- Row 6 of the literal 50 x 50 matrix `H` hardcoded in `MPC::executeOptimization` (mpc.cpp:566-615). -/
def hardHrow6 : List ℚ := [0.00566342, 0.0058614, 0.00616493, 0.00662668, 0.0121771, -0.0505271, 1.1195, -0.0469199, 0.0189527, 0.0161772, 0.0182132, 0.0202103, 0.0221734, 0.0241141, 0.0260536, 0.0280097, 0.0299751, 0.0319633, 0.033937, 0.0358409, 0.0376343, 0.0392594, 0.0406836, 0.0418576, 0.0427335, 0.0432693, 0.0434191, 0.0431711, 0.0425704, 0.0416728, 0.0405164, 0.0391271, 0.037522, 0.0357144, 0.033716, 0.0315393, 0.0291989, 0.0267126, 0.0241026, 0.0213975, 0.0186318, 0.0158475, 0.0130948, 0.0104322, 0.00792588, 0.00564818, 0.00367441, 0.00207729, 0.000917103, 0.000226316]

/-- Row 7 of the literal 50 x 50 matrix `H` hardcoded in `MPC::executeOptimization` (mpc.cpp:566-615). -/
def hardHrow7 : List ℚ := [0.00681013, 0.00704832, 0.00741345, 0.00796888, 0.00880958, 0.0149294, -0.0469199, 1.15052, -0.0676057, 0.0243082, 0.0219063, 0.0243092, 0.0266716, 0.0290075, 0.0313421, 0.033697, 0.0360635, 0.0384577, 0.0408349, 0.0431284, 0.0452894, 0.0472481, 0.0489655, 0.050382, 0.05144, 0.0520887, 0.0522731, 0.0519786, 0.0512594, 0.0501825, 0.0487941, 0.0471248, 0.0451955, 0.0430219, 0.0406182, 0.0379994, 0.035183, 0.0321903, 0.0290481, 0.0257907, 0.0224598, 0.0191059, 0.0157894, 0.0125808, 0.00955997, 0.00681406, 0.00443396, 0.00250744, 0.00110742, 0.000273385]

/-- Row 8 of the literal 50 x 50 matrix `H` hardcoded in `MPC::executeOptimization` (mpc.cpp:566-615). -/
def hardHrow8 : List ℚ := [0.00800993, 0.00829024, 0.0087199, 0.00937343, 0.0103626, 0.0118548, 0.0189527, -0.0676057, 1.23485, -0.112971, 0.0306246, 0.0286016, 0.0313828, 0.0341332, 0.0368827, 0.0396564, 0.0424442, 0.0452652, 0.0480667, 0.0507701, 0.0533181, 0.0556286, 0.0576553, 0.0593282, 0.0605793, 0.0613489, 0.0615717, 0.0612305, 0.0603891, 0.0591263, 0.057496, 0.0555347, 0.0532665, 0.0507101, 0.0478821, 0.0447999, 0.0414843, 0.0379601, 0.0342589, 0.0304212, 0.0264961, 0.0225428, 0.0186328, 0.0148492, 0.0112861, 0.00804635, 0.00523737, 0.00296285, 0.00130914, 0.000323329]

/-- Row 9 of the literal 50 x 50 matrix `H` hardcoded in `MPC::executeOptimization` (mpc.cpp:566-615). -/
def hardHrow9 : List ℚ := [0.00918759, 0.00950934, 0.0100024, 0.0107524, 0.0118874, 0.0135997, 0.0161772, 0.0243082, -0.112971, 1.36092, -0.172375, 0.0376714, 0.0360137, 0.0391728, 0.0423313, 0.0455183, 0.0487223, 0.0519649, 0.0551859, 0.0582951, 0.0612265, 0.0638859, 0.0662202, 0.0681487, 0.0695933, 0.070485, 0.0707489, 0.070365, 0.0694062, 0.0679629, 0.066097, 0.0638502, 0.0612501, 0.058318, 0.0550729, 0.0515349, 0.0477274, 0.0436792, 0.0394264, 0.0350155, 0.0305027, 0.0259565, 0.0214587, 0.0171051, 0.013004, 0.00927395, 0.00603857, 0.0034176, 0.00151089, 0.000373363]

/-- Row 10 of the literal 50 x 50 matrix `H` hardcoded in `MPC::executeOptimization` (mpc.cpp:566-615). -/
def hardHrow10 : List ℚ := [0.0103419, 0.0107044, 0.0112598, 0.0121044, 0.0133826, 0.0153108, 0.0182132, 0.0219063, 0.0306246, -0.172375, 1.51782, -0.245862, 0.045412, 0.0441221, 0.0476839, 0.0512787, 0.0548935, 0.0585527, 0.0621886, 0.0656994, 0.069011, 0.0720169, 0.0746572, 0.0768408, 0.0784796, 0.0794955, 0.0798038, 0.0793815, 0.0783108, 0.0766931, 0.0745983, 0.0720729, 0.0691483, 0.0658481, 0.0621937, 0.0582074, 0.0539158, 0.0493512, 0.0445541, 0.039577, 0.0344833, 0.0293502, 0.0242702, 0.0193513, 0.0147161, 0.0104987, 0.0068389, 0.00387255, 0.0017131, 0.000423607]

/-- Row 11 of the literal 50 x 50 matrix `H` hardcoded in `MPC::executeOptimization` (mpc.cpp:566-615). -/
def hardHrow11 : List ℚ := [0.0114735, 0.0118759, 0.0124925, 0.0134301, 0.0148488, 0.0169889, 0.0202103, 0.0243092, 0.0286016, 0.0376714, -0.245862, 1.70552, -0.333462, 0.0538355, 0.0529438, 0.0569413, 0.0609622, 0.0650338, 0.0690804, 0.0729897, 0.0766788, 0.0800295, 0.0829751, 0.0854143, 0.0872488, 0.0883916, 0.0887481, 0.0882924, 0.0871155, 0.0853299, 0.083013, 0.0802164, 0.0769745, 0.0733137, 0.0692574, 0.0648304, 0.060062, 0.0549879, 0.0496532, 0.0441162, 0.0384472, 0.0327323, 0.0270744, 0.0215938, 0.0164272, 0.0117241, 0.00764089, 0.00432925, 0.00191653, 0.000474262]

/-- Row 12 of the literal 50 x 50 matrix `H` hardcoded in `MPC::executeOptimization` (mpc.cpp:566-615). -/
def hardHrow12 : List ℚ := [0.012585, 0.0130269, 0.0137037, 0.0147327, 0.0162898, 0.0186383, 0.0221734, 0.0266716, 0.0313828, 0.0360137, 0.045412, -0.333462, 1.924, -0.435171, 0.0629768, 0.062522, 0.0669457, 0.0714266, 0.0758818, 0.0801876, 0.0842533, 0.0879487, 0.0912004, 0.0938969, 0.0959298, 0.0972032, 0.0976125, 0.097129, 0.095852, 0.093905, 0.0913727, 0.0883116, 0.0847593, 0.0807445, 0.0762927, 0.0714311, 0.0661916, 0.0606134, 0.054746, 0.0486531, 0.0424125, 0.0361186, 0.0298847, 0.0238436, 0.0181459, 0.0129568, 0.00844888, 0.00479027, 0.00212237, 0.000525641]

/-- Row 13 of the literal 50 x 50 matrix `H` hardcoded in `MPC::executeOptimization` (mpc.cpp:566-615). -/
def hardHrow13 : List ℚ := [0.0136832, 0.014164, 0.0149005, 0.0160201, 0.0177139, 0.0202687, 0.0241141, 0.0290075, 0.0341332, 0.0391728, 0.0441221, 0.0538355, -0.435171, 2.17329, -0.550928, 0.0729055, 0.0728801, 0.0777703, 0.0826346, 0.0873382, 0.0917822, 0.0958249, 0.0993861, 0.102344, 0.10458, 0.105989, 0.106457, 0.105951, 0.10458, 0.102478, 0.099736, 0.0964159, 0.0925584, 0.0881943, 0.0833512, 0.0780585, 0.0723507, 0.0662704, 0.0598714, 0.0532232, 0.0464104, 0.0395359, 0.0327239, 0.0261192, 0.0198866, 0.0142071, 0.00926991, 0.00525974, 0.00233253, 0.000578235]

/-- Row 14 of the literal 50 x 50 matrix `H` hardcoded in `MPC::executeOptimization` (mpc.cpp:566-615). -/
def hardHrow14 : List ℚ := [0.0147798, 0.0152998, 0.0160959, 0.0173061, 0.0191368, 0.0218979, 0.0260536, 0.0313421, 0.0368827, 0.0423313, 0.0476839, 0.0529438, 0.0629768, -0.550928, 2.45348, -0.680623, 0.0836818, 0.0841347, 0.0894134, 0.0945209, 0.0993499, 0.103747, 0.107625, 0.110851, 0.113298, 0.11485, 0.115384, 0.114862, 0.113403, 0.11115, 0.108203, 0.104627, 0.100466, 0.0957534, 0.0905189, 0.0847938, 0.0786154, 0.0720293, 0.0650938, 0.057884, 0.0504916, 0.0430282, 0.0356286, 0.0284502, 0.0216723, 0.0154917, 0.0101151, 0.00574413, 0.00254997, 0.000632796]

/-- Row 15 of the literal 50 x 50 matrix `H` hardcoded in `MPC::executeOptimization` (mpc.cpp:566-615). -/
def hardHrow15 : List ℚ := [0.0158851, 0.0164446, 0.017301, 0.0186026, 0.0205715, 0.0235408, 0.0280097, 0.033697, 0.0396564, 0.0455183, 0.0512787, 0.0569413, 0.062522, 0.0729055, -0.680623, 2.77039, -0.829685, 0.0954303, 0.0962819, 0.101804, 0.107028, 0.111791, 0.115997, 0.119503, 0.12217, 0.123875, 0.124483, 0.123953, 0.12241, 0.120011, 0.116861, 0.11303, 0.108565, 0.103503, 0.0978734, 0.0917107, 0.0850546, 0.0779541, 0.0704717, 0.0626883, 0.0547029, 0.0466359, 0.0386329, 0.0308643, 0.0235243, 0.0168264, 0.010995, 0.00624958, 0.0027775, 0.000690051]

/-- Row 16 of the literal 50 x 50 matrix `H` hardcoded in `MPC::executeOptimization` (mpc.cpp:566-615). -/
def hardHrow16 : List ℚ := [0.0169949, 0.0175941, 0.0185112, 0.0199048, 0.0220127, 0.0251913, 0.0299751, 0.0360635, 0.0424442, 0.0487223, 0.0548935, 0.0609622, 0.0669457, 0.0728801, 0.0836818, -0.829685, 3.13869, -1.00693, 0.108069, 0.109164, 0.114795, 0.119934, 0.124479, 0.128277, 0.131176, 0.133045, 0.133735, 0.133205, 0.131587, 0.129047, 0.125698, 0.121615, 0.116848, 0.111435, 0.105409, 0.0988048, 0.0916654, 0.0840431, 0.0760046, 0.0676367, 0.0590454, 0.0503606, 0.0417388, 0.0333638, 0.025445, 0.0182132, 0.0119112, 0.00677729, 0.00301578, 0.000750195]

/-- Row 17 of the literal 50 x 50 matrix `H` hardcoded in `MPC::executeOptimization` (mpc.cpp:566-615). -/
def hardHrow17 : List ℚ := [0.0181167, 0.0187562, 0.0197348, 0.0212216, 0.0234702, 0.0268608, 0.0319633, 0.0384577, 0.0452652, 0.0519649, 0.0585527, 0.0650338, 0.0714266, 0.0777703, 0.0841347, 0.0954303, -1.00693, 3.55602, -1.20139, 0.121504, 0.122705, 0.128235, 0.133135, 0.137238, 0.140384, 0.142429, 0.143215, 0.142694, 0.141008, 0.138332, 0.134788, 0.130456, 0.125386, 0.11962, 0.113193, 0.10614, 0.0985087, 0.0903531, 0.0817449, 0.0727765, 0.0635618, 0.0542396, 0.044978, 0.0359745, 0.0274547, 0.019667, 0.0128739, 0.00733329, 0.00326765, 0.000813965]

/-- Row 18 of the literal 50 x 50 matrix `H` hardcoded in `MPC::executeOptimization` (mpc.cpp:566-615). -/
def hardHrow18 : List ℚ := [0.0192294, 0.0199091, 0.0209488, 0.0225282, 0.0249166, 0.0285178, 0.033937, 0.0408349, 0.0480667, 0.0551859, 0.0621886, 0.0690804, 0.0758818, 0.0826346, 0.0894134, 0.0962819, 0.108069, -1.20139, 4.05652, -1.45708, 0.135469, 0.13655, 0.141815, 0.146237, 0.149642, 0.151876, 0.152769, 0.15227, 0.150527, 0.147727, 0.143998, 0.139423, 0.134057, 0.127944, 0.121117, 0.113619, 0.105494, 0.0968027, 0.0876202, 0.0780448, 0.0681978, 0.0582276, 0.0483139, 0.0386682, 0.0295324, 0.0211736, 0.0138742, 0.00791281, 0.00353114, 0.000880915]

/-- Row 19 of the literal 50 x 50 matrix `H` hardcoded in `MPC::executeOptimization` (mpc.cpp:566-615). -/
def hardHrow19 : List ℚ := [0.0203016, 0.0210201, 0.022119, 0.0237879, 0.0263114, 0.0301159, 0.0358409, 0.0431284, 0.0507701, 0.0582951, 0.0656994, 0.0729897, 0.0801876, 0.0873382, 0.0945209, 0.101804, 0.109164, 0.121504, -1.45708, 4.6509, -1.74284, 0.149512, 0.150296, 0.155043, 0.158716, 0.161151, 0.162165, 0.161703, 0.15992, 0.157012, 0.153113, 0.148313, 0.142668, 0.136222, 0.129013, 0.121081, 0.112476, 0.10326, 0.0935125, 0.0833378, 0.0728642, 0.0622496, 0.0516852, 0.0413967, 0.0316423, 0.0227078, 0.0148961, 0.00850711, 0.00380254, 0.00095017]

/-- Row 20 of the literal 50 x 50 matrix `H` hardcoded in `MPC::executeOptimization` (mpc.cpp:566-615). -/
def hardHrow20 : List ℚ := [0.0213104, 0.0220656, 0.0232203, 0.0249737, 0.0276246, 0.031621, 0.0376343, 0.0452894, 0.0533181, 0.0612265, 0.069011, 0.0766788, 0.0842533, 0.0917822, 0.0993499, 0.107028, 0.114795, 0.122705, 0.135469, -1.74284, 5.34257, -2.09315, 0.163258, 0.163483, 0.167432, 0.170079, 0.17123, 0.170822, 0.169018, 0.166024, 0.16198, 0.156978, 0.151078, 0.144323, 0.136754, 0.128413, 0.11935, 0.10963, 0.0993377, 0.0885816, 0.0774977, 0.0662526, 0.0550491, 0.0441264, 0.0337594, 0.0242525, 0.0159289, 0.00911037, 0.00407943, 0.00102117]

/-- Row 21 of the literal 50 x 50 matrix `H` hardcoded in `MPC::executeOptimization` (mpc.cpp:566-615). -/
def hardHrow21 : List ℚ := [0.0222229, 0.0230115, 0.024217, 0.0260471, 0.0288138, 0.0329843, 0.0392594, 0.0472481, 0.0556286, 0.0638859, 0.0720169, 0.0800295, 0.0879487, 0.0958249, 0.103747, 0.111791, 0.119934, 0.128235, 0.13655, 0.149512, -2.09315, 6.14394, -2.48811, 0.176156, 0.175534, 0.178403, 0.179705, 0.179373, 0.177575, 0.174524, 0.170365, 0.165195, 0.159073, 0.152046, 0.144153, 0.135438, 0.125954, 0.115767, 0.104964, 0.0936605, 0.0819982, 0.0701524, 0.0583365, 0.0468033, 0.0358432, 0.025779, 0.0169544, 0.00971254, 0.00435752, 0.00109288]

/-- Row 22 of the literal 50 x 50 matrix `H` hardcoded in `MPC::executeOptimization` (mpc.cpp:566-615). -/
def hardHrow22 : List ℚ := [0.0230208, 0.023839, 0.0250891, 0.0269868, 0.0298552, 0.0341787, 0.0406836, 0.0489655, 0.0576553, 0.0662202, 0.0746572, 0.0829751, 0.0912004, 0.0993861, 0.107625, 0.115997, 0.124479, 0.133135, 0.141815, 0.150296, 0.163258, -2.48811, 7.04484, -2.93838, 0.18772, 0.185969, 0.18744, 0.187208, 0.185445, 0.18237, 0.178134, 0.172834, 0.166532, 0.159275, 0.151103, 0.142059, 0.132198, 0.121588, 0.11032, 0.0985115, 0.0863119, 0.0739038, 0.061511, 0.0493987, 0.0378725, 0.0272728, 0.0179634, 0.0103087, 0.00463478, 0.00116485]

/-- Row 23 of the literal 50 x 50 matrix `H` hardcoded in `MPC::executeOptimization` (mpc.cpp:566-615). -/
def hardHrow23 : List ℚ := [0.0236764, 0.0245191, 0.0258063, 0.02776, 0.0307126, 0.0351626, 0.0418576, 0.050382, 0.0593282, 0.0681487, 0.0768408, 0.0854143, 0.0938969, 0.102344, 0.110851, 0.119503, 0.128277, 0.137238, 0.146237, 0.155043, 0.163483, 0.176156, -2.93838, 8.06164, -3.45104, 0.19739, 0.194197, 0.194093, 0.192399, 0.189341, 0.185071, 0.17969, 0.173259, 0.165825, 0.157428, 0.148113, 0.137933, 0.126959, 0.115283, 0.103027, 0.0903458, 0.0774286, 0.0645084, 0.0518621, 0.0398093, 0.0287073, 0.0189387, 0.0108894, 0.00490711, 0.00123609]

/-- Row 24 of the literal 50 x 50 matrix `H` hardcoded in `MPC::executeOptimization` (mpc.cpp:566-615). -/
def hardHrow24 : List ℚ := [0.0241627, 0.025024, 0.0263393, 0.028335, 0.0313509, 0.035896, 0.0427335, 0.05144, 0.0605793, 0.0695933, 0.0784796, 0.0872488, 0.0959298, 0.10458, 0.113298, 0.12217, 0.131176, 0.140384, 0.149642, 0.158716, 0.167432, 0.175534, 0.18772, -3.45104, 9.19385, -4.02047, 0.204583, 0.199785, 0.1982, 0.195206, 0.190955, 0.185549, 0.17905, 0.171504, 0.16295, 0.153431, 0.143004, 0.131737, 0.119726, 0.107095, 0.0940028, 0.0806444, 0.0672611, 0.0541398, 0.0416132, 0.0300537, 0.0198621, 0.0114444, 0.00517003, 0.0013055]

/-- Row 25 of the literal 50 x 50 matrix `H` hardcoded in `MPC::executeOptimization` (mpc.cpp:566-615). -/
def hardHrow25 : List ℚ := [0.0244562, 0.0253293, 0.0266622, 0.0286842, 0.0317395, 0.0363435, 0.0432693, 0.0520887, 0.0613489, 0.070485, 0.0794955, 0.0883916, 0.0972032, 0.105989, 0.11485, 0.123875, 0.133045, 0.142429, 0.151876, 0.161151, 0.170079, 0.178403, 0.185969, 0.19739, -4.02047, 10.436, -4.64839, 0.208904, 0.202623, 0.199745, 0.195574, 0.190208, 0.183711, 0.176126, 0.167493, 0.157853, 0.147261, 0.135787, 0.123527, 0.110607, 0.0971881, 0.0834709, 0.0697027, 0.0561793, 0.0432443, 0.0312839, 0.0207151, 0.0119632, 0.00541901, 0.00137198]

/-- Row 26 of the literal 50 x 50 matrix `H` hardcoded in `MPC::executeOptimization` (mpc.cpp:566-615). -/
def hardHrow26 : List ℚ := [0.0245311, 0.0254083, 0.0267469, 0.0287774, 0.0318448, 0.0364668, 0.0434191, 0.0522731, 0.0615717, 0.0707489, 0.0798038, 0.0887481, 0.0976125, 0.106457, 0.115384, 0.124483, 0.133735, 0.143215, 0.152769, 0.162165, 0.17123, 0.179705, 0.18744, 0.194197, 0.204583, -4.64839, 11.7878, -5.33433, 0.210254, 0.202702, 0.198678, 0.193428, 0.187013, 0.179476, 0.170853, 0.161185, 0.150527, 0.138946, 0.126538, 0.113432, 0.0997879, 0.085811, 0.071753, 0.0579164, 0.0446536, 0.0323626, 0.0214748, 0.0124328, 0.00564823, 0.00143408]

/-- Row 27 of the literal 50 x 50 matrix `H` hardcoded in `MPC::executeOptimization` (mpc.cpp:566-615). -/
def hardHrow27 : List ℚ := [0.024381, 0.0252543, 0.0265864, 0.0286066, 0.0316582, 0.0362558, 0.0431711, 0.0519786, 0.0612305, 0.070365, 0.0793815, 0.0882924, 0.097129, 0.105951, 0.114862, 0.123953, 0.133205, 0.142694, 0.15227, 0.161703, 0.170822, 0.179373, 0.187208, 0.194093, 0.199785, 0.208904, -5.33433, 13.1997, -6.03149, 0.208804, 0.200149, 0.195095, 0.188848, 0.18145, 0.172934, 0.16334, 0.152719, 0.141139, 0.128693, 0.115509, 0.10175, 0.0876202, 0.0733749, 0.0593213, 0.0458186, 0.0332737, 0.0221305, 0.0128472, 0.005855, 0.00149112]

/-- Row 28 of the literal 50 x 50 matrix `H` hardcoded in `MPC::executeOptimization` (mpc.cpp:566-615). -/
def hardHrow28 : List ℚ := [0.0240317, 0.0248939, 0.0262087, 0.0282022, 0.0312129, 0.0357487, 0.0425704, 0.0512594, 0.0603891, 0.0694062, 0.0783108, 0.0871155, 0.095852, 0.10458, 0.113403, 0.12241, 0.131587, 0.141008, 0.150527, 0.15992, 0.169018, 0.177575, 0.185445, 0.192399, 0.1982, 0.202623, 0.210254, -6.03149, 14.5935, -6.70852, 0.204957, 0.195328, 0.189334, 0.182163, 0.173847, 0.164422, 0.153936, 0.142457, 0.130075, 0.116915, 0.103141, 0.0889556, 0.0746164, 0.0604329, 0.046769, 0.0340389, 0.0226967, 0.0132147, 0.00604309, 0.00154406]

/-- Row 29 of the literal 50 x 50 matrix `H` hardcoded in `MPC::executeOptimization` (mpc.cpp:566-615). -/
def hardHrow29 : List ℚ := [0.023515, 0.02436, 0.0256483, 0.0276011, 0.03055, 0.0349922, 0.0416728, 0.0501825, 0.0591263, 0.0679629, 0.0766931, 0.0853299, 0.093905, 0.102478, 0.11115, 0.120011, 0.129047, 0.138332, 0.147727, 0.157012, 0.166024, 0.174524, 0.18237, 0.189341, 0.195206, 0.199745, 0.202702, 0.208804, -6.70852, 15.9565, -7.38212, 0.199136, 0.188627, 0.181769, 0.173739, 0.164572, 0.154313, 0.143025, 0.130797, 0.117753, 0.104051, 0.089896, 0.0755436, 0.0613048, 0.0475465, 0.0346885, 0.0231936, 0.0135471, 0.00621787, 0.00159427]

/-- Row 30 of the literal 50 x 50 matrix `H` hardcoded in `MPC::executeOptimization` (mpc.cpp:566-615). -/
def hardHrow30 : List ℚ := [0.0228526, 0.0236752, 0.024929, 0.0268289, 0.0296976, 0.0340185, 0.0405164, 0.0487941, 0.057496, 0.066097, 0.0745983, 0.083013, 0.0913727, 0.099736, 0.108203, 0.116861, 0.125698, 0.134788, 0.143998, 0.153113, 0.16198, 0.170365, 0.178134, 0.185071, 0.190955, 0.195574, 0.198678, 0.200149, 0.204957, -7.38212, 17.3197, -8.06487, 0.191653, 0.180343, 0.172687, 0.163866, 0.153921, 0.142913, 0.130926, 0.118081, 0.104535, 0.0904886, 0.0761969, 0.0619702, 0.0481772, 0.0352418, 0.0236342, 0.0138522, 0.00638299, 0.00164271]

/-- Row 31 of the literal 50 x 50 matrix `H` hardcoded in `MPC::executeOptimization` (mpc.cpp:566-615). -/
def hardHrow31 : List ℚ := [0.0220592, 0.0228547, 0.0240666, 0.0259027, 0.0286747, 0.0328494, 0.0391271, 0.0471248, 0.0555347, 0.0638502, 0.0720729, 0.0802164, 0.0883116, 0.0964159, 0.104627, 0.11303, 0.121615, 0.130456, 0.139423, 0.148313, 0.156978, 0.165195, 0.172834, 0.17969, 0.185549, 0.190208, 0.193428, 0.195095, 0.195328, 0.199136, -8.06487, 18.7115, -8.77116, 0.182748, 0.170709, 0.162325, 0.152784, 0.142144, 0.130485, 0.117925, 0.104615, 0.0907551, 0.0765955, 0.0624457, 0.0486747, 0.0357092, 0.024026, 0.0141344, 0.00654069, 0.00168998]

/-- Row 32 of the literal 50 x 50 matrix `H` hardcoded in `MPC::executeOptimization` (mpc.cpp:566-615). -/
def hardHrow32 : List ℚ := [0.0211448, 0.0219087, 0.023072, 0.0248341, 0.0274939, 0.0314993, 0.037522, 0.0451955, 0.0532665, 0.0612501, 0.0691483, 0.0769745, 0.0847593, 0.0925584, 0.100466, 0.108565, 0.116848, 0.125386, 0.134057, 0.142668, 0.151078, 0.159073, 0.166532, 0.173259, 0.17905, 0.183711, 0.187013, 0.188848, 0.189334, 0.188627, 0.191653, -8.77116, 20.1563, -9.50998, 0.17262, 0.159923, 0.150885, 0.140707, 0.129469, 0.117281, 0.104292, 0.0906966, 0.0767419, 0.0627345, 0.0490425, 0.0360942, 0.0243718, 0.0143959, 0.00669206, 0.0017364]

/-- Row 33 of the literal 50 x 50 matrix `H` hardcoded in `MPC::executeOptimization` (mpc.cpp:566-615). -/
def hardHrow33 : List ℚ := [0.0201169, 0.020845, 0.0219533, 0.0236318, 0.026165, 0.0299794, 0.0357144, 0.0430219, 0.0507101, 0.058318, 0.0658481, 0.0733137, 0.0807445, 0.0881943, 0.0957534, 0.103503, 0.111435, 0.11962, 0.127944, 0.136222, 0.144323, 0.152046, 0.159275, 0.165825, 0.171504, 0.176126, 0.179476, 0.18145, 0.182163, 0.181769, 0.180343, 0.182748, -9.50998, 21.6734, -10.2907, 0.161449, 0.148171, 0.138562, 0.127843, 0.116123, 0.103545, 0.0902988, 0.0766262, 0.0628303, 0.0492769, 0.0363948, 0.024671, 0.0146368, 0.00683738, 0.0017821]

/-- Row 34 of the literal 50 x 50 matrix `H` hardcoded in `MPC::executeOptimization` (mpc.cpp:566-615). -/
def hardHrow34 : List ℚ := [0.0189824, 0.0196706, 0.020718, 0.0223038, 0.0246967, 0.0282995, 0.033716, 0.0406182, 0.0478821, 0.0550729, 0.0621937, 0.0692574, 0.0762927, 0.0833512, 0.0905189, 0.0978734, 0.105409, 0.113193, 0.121117, 0.129013, 0.136754, 0.144153, 0.151103, 0.157428, 0.16295, 0.167493, 0.170853, 0.172934, 0.173847, 0.173739, 0.172687, 0.170709, 0.17262, -10.2907, 23.279, -11.1194, 0.149412, 0.135638, 0.125553, 0.114407, 0.10234, 0.0895345, 0.0762281, 0.0627185, 0.0493681, 0.0366052, 0.0249205, 0.0148556, 0.00697626, 0.00182704]

/-- Row 35 of the literal 50 x 50 matrix `H` hardcoded in `MPC::executeOptimization` (mpc.cpp:566-615). -/
def hardHrow35 : List ℚ := [0.0177483, 0.018393, 0.0193738, 0.0208584, 0.0230982, 0.0264702, 0.0315393, 0.0379994, 0.0447999, 0.0515349, 0.0582074, 0.0648304, 0.0714311, 0.0780585, 0.0847938, 0.0917107, 0.0988048, 0.10614, 0.113619, 0.121081, 0.128413, 0.135438, 0.142059, 0.148113, 0.153431, 0.157853, 0.161185, 0.16334, 0.164422, 0.164572, 0.163866, 0.162325, 0.159923, 0.161449, -11.1194, 24.9877, -12.0039, 0.136693, 0.122519, 0.112069, 0.100625, 0.0883636, 0.075517, 0.0623766, 0.0493005, 0.0367152, 0.0251143, 0.0150496, 0.00710765, 0.001871]

/-- Row 36 of the literal 50 x 50 matrix `H` hardcoded in `MPC::executeOptimization` (mpc.cpp:566-615). -/
def hardHrow36 : List ℚ := [0.016423, 0.0170208, 0.0179298, 0.0193054, 0.0213803, 0.0245038, 0.0291989, 0.035183, 0.0414843, 0.0477274, 0.0539158, 0.060062, 0.0661916, 0.0723507, 0.0786154, 0.0850546, 0.0916654, 0.0985087, 0.105494, 0.112476, 0.11935, 0.125954, 0.132198, 0.137933, 0.143004, 0.147261, 0.150527, 0.152719, 0.153936, 0.154313, 0.153921, 0.152784, 0.150885, 0.148171, 0.149412, -12.0039, 26.8128, -12.9489, 0.123487, 0.109022, 0.0983302, 0.0867318, 0.0744513, 0.0617739, 0.0490524, 0.0367105, 0.0252439, 0.0152141, 0.00722978, 0.00191359]

/-- Row 37 of the literal 50 x 50 matrix `H` hardcoded in `MPC::executeOptimization` (mpc.cpp:566-615). -/
def hardHrow37 : List ℚ := [0.0150168, 0.0155645, 0.016397, 0.0176565, 0.0195561, 0.0224152, 0.0267126, 0.0321903, 0.0379601, 0.0436792, 0.0493512, 0.0549879, 0.0606134, 0.0662704, 0.0720293, 0.0779541, 0.0840431, 0.0903531, 0.0968027, 0.10326, 0.10963, 0.115767, 0.121588, 0.126959, 0.131737, 0.135787, 0.138946, 0.141139, 0.142457, 0.143025, 0.142913, 0.142144, 0.140707, 0.138562, 0.135638, 0.136693, -12.9489, 28.7688, -13.9633, 0.110002, 0.0953639, 0.084566, 0.0729747, 0.0608684, 0.0485938, 0.0365709, 0.0252968, 0.0153427, 0.00733988, 0.00195418]

/-- Row 38 of the literal 50 x 50 matrix `H` hardcoded in `MPC::executeOptimization` (mpc.cpp:566-615). -/
def hardHrow38 : List ℚ := [0.0135421, 0.0140371, 0.0147892, 0.0159266, 0.0176418, 0.0202231, 0.0241026, 0.0290481, 0.0342589, 0.0394264, 0.0445541, 0.0496532, 0.054746, 0.0598714, 0.0650938, 0.0704717, 0.0760046, 0.0817449, 0.0876202, 0.0935125, 0.0993377, 0.104964, 0.11032, 0.115283, 0.119726, 0.123527, 0.126538, 0.128693, 0.130075, 0.130797, 0.130926, 0.130485, 0.129469, 0.127843, 0.125553, 0.122519, 0.123487, -13.9633, 30.8685, -15.0501, 0.0964541, 0.0817694, 0.0710128, 0.0596044, 0.0478845, 0.0362691, 0.0252561, 0.015426, 0.00743395, 0.00199177]

/-- Row 39 of the literal 50 x 50 matrix `H` hardcoded in `MPC::executeOptimization` (mpc.cpp:566-615). -/
def hardHrow39 : List ℚ := [0.0120153, 0.0124554, 0.0131239, 0.0141347, 0.0156585, 0.0179515, 0.0213975, 0.0257907, 0.0304212, 0.0350155, 0.039577, 0.0441162, 0.0486531, 0.0532232, 0.057884, 0.0626883, 0.0676367, 0.0727765, 0.0780448, 0.0833378, 0.0885816, 0.0936605, 0.0985115, 0.103027, 0.107095, 0.110607, 0.113432, 0.115509, 0.116915, 0.117753, 0.118081, 0.117925, 0.117281, 0.116123, 0.114407, 0.112069, 0.109022, 0.110002, -15.0501, 33.1226, -16.2163, 0.0830654, 0.068467, 0.0579081, 0.0468714, 0.0357688, 0.0250987, 0.0154513, 0.00750635, 0.00202496]

/-- Row 40 of the literal 50 x 50 matrix `H` hardcoded in `MPC::executeOptimization` (mpc.cpp:566-615). -/
def hardHrow40 : List ℚ := [0.0104558, 0.0108398, 0.0114226, 0.0123036, 0.0136316, 0.0156295, 0.0186318, 0.0224598, 0.0264961, 0.0305027, 0.0344833, 0.0384472, 0.0424125, 0.0464104, 0.0504916, 0.0547029, 0.0590454, 0.0635618, 0.0681978, 0.0728642, 0.0774977, 0.0819982, 0.0863119, 0.0903458, 0.0940028, 0.0971881, 0.0997879, 0.10175, 0.103141, 0.104051, 0.104535, 0.104615, 0.104292, 0.103545, 0.10234, 0.100625, 0.0983302, 0.0953639, 0.0964541, -16.2163, 35.5474, -17.4702, 0.0700533, 0.0556778, 0.0454807, 0.0350191, 0.0247921, 0.0154, 0.00754876, 0.00205164]

/-- Row 41 of the literal 50 x 50 matrix `H` hardcoded in `MPC::executeOptimization` (mpc.cpp:566-615). -/
def hardHrow41 : List ℚ := [0.0088874, 0.00921461, 0.00971106, 0.0104612, 0.0115917, 0.0132923, 0.0158475, 0.0191059, 0.0225428, 0.0259565, 0.0293502, 0.0327323, 0.0361186, 0.0395359, 0.0430282, 0.0466359, 0.0503606, 0.0542396, 0.0582276, 0.0622496, 0.0662526, 0.0701524, 0.0739038, 0.0774286, 0.0806444, 0.0834709, 0.085811, 0.0876202, 0.0889556, 0.089896, 0.0904886, 0.0907551, 0.0906966, 0.0902988, 0.0895345, 0.0883636, 0.0867318, 0.084566, 0.0817694, 0.0830654, -17.4702, 38.1578, -18.8176, 0.0576234, 0.0436095, 0.0339484, 0.0242901, 0.0152458, 0.00754909, 0.00206867]

/-- Row 42 of the literal 50 x 50 matrix `H` hardcoded in `MPC::executeOptimization` (mpc.cpp:566-615). -/
def hardHrow42 : List ℚ := [0.00733827, 0.00760922, 0.00802008, 0.00864067, 0.00957567, 0.010982, 0.0130948, 0.0157894, 0.0186328, 0.0214587, 0.0242702, 0.0270744, 0.0298847, 0.0327239, 0.0356286, 0.0386329, 0.0417388, 0.044978, 0.0483139, 0.0516852, 0.0550491, 0.0583365, 0.061511, 0.0645084, 0.0672611, 0.0697027, 0.071753, 0.0733749, 0.0746164, 0.0755436, 0.0761969, 0.0765955, 0.0767419, 0.0766262, 0.0762281, 0.075517, 0.0744513, 0.0729747, 0.0710128, 0.068467, 0.0700533, -18.8176, 40.9673, -20.2652, 0.0459644, 0.032456, 0.0235272, 0.0149508, 0.00748977, 0.00207144]

/-- Row 43 of the literal 50 x 50 matrix `H` hardcoded in `MPC::executeOptimization` (mpc.cpp:566-615). -/
def hardHrow43 : List ℚ := [0.00584136, 0.00605773, 0.00638561, 0.00688068, 0.00762634, 0.00874769, 0.0104322, 0.0125808, 0.0148492, 0.0171051, 0.0193513, 0.0215938, 0.0238436, 0.0261192, 0.0284502, 0.0308643, 0.0333638, 0.0359745, 0.0386682, 0.0413967, 0.0441264, 0.0468033, 0.0493987, 0.0518621, 0.0541398, 0.0561793, 0.0579164, 0.0593213, 0.0604329, 0.0613048, 0.0619702, 0.0624457, 0.0627345, 0.0628303, 0.0627185, 0.0623766, 0.0617739, 0.0608684, 0.0596044, 0.0579081, 0.0556778, 0.0576234, -20.2652, 43.9911, -21.8209, 0.0352484, 0.0224088, 0.0144597, 0.00734497, 0.00205314]

/-- Row 44 of the literal 50 x 50 matrix `H` hardcoded in `MPC::executeOptimization` (mpc.cpp:566-615). -/
def hardHrow44 : List ℚ := [0.00443384, 0.00459867, 0.00484827, 0.00522496, 0.00579217, 0.00664496, 0.00792588, 0.00955997, 0.0112861, 0.013004, 0.0147161, 0.0164272, 0.0181459, 0.0198866, 0.0216723, 0.0235243, 0.025445, 0.0274547, 0.0295324, 0.0316423, 0.0337594, 0.0358432, 0.0378725, 0.0398093, 0.0416132, 0.0432443, 0.0446536, 0.0458186, 0.046769, 0.0475465, 0.0481772, 0.0486747, 0.0490425, 0.0492769, 0.0493681, 0.0493005, 0.0490524, 0.0485938, 0.0478845, 0.0468714, 0.0454807, 0.0436095, 0.0459644, -21.8209, 47.2464, -23.493, 0.0256481, 0.0136917, 0.00707654, 0.0020036]

/-- Row 45 of the literal 50 x 50 matrix `H` hardcoded in `MPC::executeOptimization` (mpc.cpp:566-615). -/
def hardHrow45 : List ℚ := [0.00315622, 0.00327405, 0.00345233, 0.00372124, 0.00412601, 0.00473444, 0.00564818, 0.00681406, 0.00804635, 0.00927395, 0.0104987, 0.0117241, 0.0129568, 0.0142071, 0.0154917, 0.0168264, 0.0182132, 0.019667, 0.0211736, 0.0227078, 0.0242525, 0.025779, 0.0272728, 0.0287073, 0.0300537, 0.0312839, 0.0323626, 0.0332737, 0.0340389, 0.0346885, 0.0352418, 0.0357092, 0.0360942, 0.0363948, 0.0366052, 0.0367152, 0.0367105, 0.0365709, 0.0362691, 0.0357688, 0.0350191, 0.0339484, 0.032456, 0.0352484, -23.493, 50.7532, -25.2925, 0.0173783, 0.00662773, 0.00190766]

/-- Row 46 of the literal 50 x 50 matrix `H` hardcoded in `MPC::executeOptimization` (mpc.cpp:566-615). -/
def hardHrow46 : List ℚ := [0.00205059, 0.00212753, 0.00224383, 0.00241914, 0.0026829, 0.00307927, 0.00367441, 0.00443396, 0.00523737, 0.00603857, 0.0068389, 0.00764089, 0.00844888, 0.00926991, 0.0101151, 0.010995, 0.0119112, 0.0128739, 0.0138742, 0.0148961, 0.0159289, 0.0169544, 0.0179634, 0.0189387, 0.0198621, 0.0207151, 0.0214748, 0.0221305, 0.0226967, 0.0231936, 0.0236342, 0.024026, 0.0243718, 0.024671, 0.0249205, 0.0251143, 0.0252439, 0.0252968, 0.0252561, 0.0250987, 0.0247921, 0.0242901, 0.0235272, 0.0224088, 0.0256481, -25.2925, 54.5308, -27.2266, 0.0107653, 0.00174259]

/-- Row 47 of the literal 50 x 50 matrix `H` hardcoded in `MPC::executeOptimization` (mpc.cpp:566-615). -/
def hardHrow47 : List ℚ := [0.00115742, 0.00120111, 0.00126708, 0.00136645, 0.00151587, 0.00174033, 0.00207729, 0.00250744, 0.00296285, 0.0034176, 0.00387255, 0.00432925, 0.00479027, 0.00525974, 0.00574413, 0.00624958, 0.00677729, 0.00733329, 0.00791281, 0.00850711, 0.00911037, 0.00971254, 0.0103087, 0.0108894, 0.0114444, 0.0119632, 0.0124328, 0.0128472, 0.0132147, 0.0135471, 0.0138522, 0.0141344, 0.0143959, 0.0146368, 0.0148556, 0.0150496, 0.0152141, 0.0153427, 0.015426, 0.0154513, 0.0154, 0.0152458, 0.0149508, 0.0144597, 0.0136917, 0.0173783, -27.2266, 58.5965, -29.3045, 0.00632577]

/-- Row 48 of the literal 50 x 50 matrix `H` hardcoded in `MPC::executeOptimization` (mpc.cpp:566-615). -/
def hardHrow48 : List ℚ := [0.000509977, 0.000529376, 0.000558621, 0.000602627, 0.000668762, 0.000768069, 0.000917103, 0.00110742, 0.00130914, 0.00151089, 0.0017131, 0.00191653, 0.00212237, 0.00233253, 0.00254997, 0.0027775, 0.00301578, 0.00326765, 0.00353114, 0.00380254, 0.00407943, 0.00435752, 0.00463478, 0.00490711, 0.00517003, 0.00541901, 0.00564823, 0.005855, 0.00604309, 0.00621787, 0.00638299, 0.00654069, 0.00669206, 0.00683738, 0.00697626, 0.00710765, 0.00722978, 0.00733988, 0.00743395, 0.00750635, 0.00754876, 0.00754909, 0.00748977, 0.00734497, 0.00707654, 0.00662773, 0.0107653, -29.3045, 62.9714, -31.5314]

/-- Row 49 of the literal 50 x 50 matrix `H` hardcoded in `MPC::executeOptimization` (mpc.cpp:566-615). -/
def hardHrow49 : List ℚ := [0.000125592, 0.000130406, 0.000137654, 0.000148548, 0.000164911, 0.00018947, 0.000226316, 0.000273385, 0.000323329, 0.000373363, 0.000423607, 0.000474262, 0.000525641, 0.000578235, 0.000632796, 0.000690051, 0.000750195, 0.000813965, 0.000880915, 0.00095017, 0.00102117, 0.00109288, 0.00116485, 0.00123609, 0.0013055, 0.00137198, 0.00143408, 0.00149112, 0.00154406, 0.00159427, 0.00164271, 0.00168998, 0.0017364, 0.0017821, 0.00182704, 0.001871, 0.00191359, 0.00195418, 0.00199177, 0.00202496, 0.00205164, 0.00206867, 0.00207144, 0.00205314, 0.0020036, 0.00190766, 0.00174259, 0.00632577, -31.5314, 33.7455]

/-- The literal `H` of `MPC::executeOptimization`, assembled from its rows. -/
def hardHrows : List (List ℚ) := [hardHrow0, hardHrow1, hardHrow2, hardHrow3, hardHrow4, hardHrow5, hardHrow6, hardHrow7, hardHrow8, hardHrow9, hardHrow10, hardHrow11, hardHrow12, hardHrow13, hardHrow14, hardHrow15, hardHrow16, hardHrow17, hardHrow18, hardHrow19, hardHrow20, hardHrow21, hardHrow22, hardHrow23, hardHrow24, hardHrow25, hardHrow26, hardHrow27, hardHrow28, hardHrow29, hardHrow30, hardHrow31, hardHrow32, hardHrow33, hardHrow34, hardHrow35, hardHrow36, hardHrow37, hardHrow38, hardHrow39, hardHrow40, hardHrow41, hardHrow42, hardHrow43, hardHrow44, hardHrow45, hardHrow46, hardHrow47, hardHrow48, hardHrow49]

/-- The literal 1 x 50 vector `f` hardcoded in `MPC::executeOptimization` (mpc.cpp:617-666). -/
def hardFrow : List ℚ := [-0.0111425, -0.011538, -0.0121425, -0.0130601, -0.0144474, -0.0165385, -0.0196848, -0.0236903, -0.0278921, -0.0320323, -0.036109, -0.0401265, -0.0440975, -0.0480478, -0.0520223, -0.0560601, -0.0601514, -0.0643271, -0.068518, -0.0726177, -0.0765486, -0.0801968, -0.0834977, -0.0863953, -0.0885252, -0.101229, -0.103082, -0.104449, -0.105031, -0.104906, -0.104092, -0.102617, -0.100496, -0.0977022, -0.0942305, -0.0900319, -0.0851233, -0.0794254, -0.0732799, -0.052512, -0.0469537, -0.0409763, -0.0349491, -0.0289862, -0.0229266, -0.0388009, -0.0517509, -0.0746045, -0.109363, -0.157534]

/-- Row 0 of the literal 50 x 50 constraint matrix `A` hardcoded in `MPC::executeOptimization` (mpc.cpp:669-718). -/
def hardArow0 : List ℚ := [1, 0, 0, 0, 0, 0, 0, 0, 0, 0, 0, 0, 0, 0, 0, 0, 0, 0, 0, 0, 0, 0, 0, 0, 0, 0, 0, 0, 0, 0, 0, 0, 0, 0, 0, 0, 0, 0, 0, 0, 0, 0, 0, 0, 0, 0, 0, 0, 0, 0]

/-- Row 1 of the literal 50 x 50 constraint matrix `A` hardcoded in `MPC::executeOptimization` (mpc.cpp:669-718). -/
def hardArow1 : List ℚ := [-1, 1, 0, 0, 0, 0, 0, 0, 0, 0, 0, 0, 0, 0, 0, 0, 0, 0, 0, 0, 0, 0, 0, 0, 0, 0, 0, 0, 0, 0, 0, 0, 0, 0, 0, 0, 0, 0, 0, 0, 0, 0, 0, 0, 0, 0, 0, 0, 0, 0]

/-- Row 2 of the literal 50 x 50 constraint matrix `A` hardcoded in `MPC::executeOptimization` (mpc.cpp:669-718). -/
def hardArow2 : List ℚ := [0, -1, 1, 0, 0, 0, 0, 0, 0, 0, 0, 0, 0, 0, 0, 0, 0, 0, 0, 0, 0, 0, 0, 0, 0, 0, 0, 0, 0, 0, 0, 0, 0, 0, 0, 0, 0, 0, 0, 0, 0, 0, 0, 0, 0, 0, 0, 0, 0, 0]

/-- Row 3 of the literal 50 x 50 constraint matrix `A` hardcoded in `MPC::executeOptimization` (mpc.cpp:669-718). -/
def hardArow3 : List ℚ := [0, 0, -1, 1, 0, 0, 0, 0, 0, 0, 0, 0, 0, 0, 0, 0, 0, 0, 0, 0, 0, 0, 0, 0, 0, 0, 0, 0, 0, 0, 0, 0, 0, 0, 0, 0, 0, 0, 0, 0, 0, 0, 0, 0, 0, 0, 0, 0, 0, 0]

/-- Row 4 of the literal 50 x 50 constraint matrix `A` hardcoded in `MPC::executeOptimization` (mpc.cpp:669-718). -/
def hardArow4 : List ℚ := [0, 0, 0, -1, 1, 0, 0, 0, 0, 0, 0, 0, 0, 0, 0, 0, 0, 0, 0, 0, 0, 0, 0, 0, 0, 0, 0, 0, 0, 0, 0, 0, 0, 0, 0, 0, 0, 0, 0, 0, 0, 0, 0, 0, 0, 0, 0, 0, 0, 0]

/-- Row 5 of the literal 50 x 50 constraint matrix `A` hardcoded in `MPC::executeOptimization` (mpc.cpp:669-718). -/
def hardArow5 : List ℚ := [0, 0, 0, 0, -1, 1, 0, 0, 0, 0, 0, 0, 0, 0, 0, 0, 0, 0, 0, 0, 0, 0, 0, 0, 0, 0, 0, 0, 0, 0, 0, 0, 0, 0, 0, 0, 0, 0, 0, 0, 0, 0, 0, 0, 0, 0, 0, 0, 0, 0]

/-- Row 6 of the literal 50 x 50 constraint matrix `A` hardcoded in `MPC::executeOptimization` (mpc.cpp:669-718). -/
def hardArow6 : List ℚ := [0, 0, 0, 0, 0, -1, 1, 0, 0, 0, 0, 0, 0, 0, 0, 0, 0, 0, 0, 0, 0, 0, 0, 0, 0, 0, 0, 0, 0, 0, 0, 0, 0, 0, 0, 0, 0, 0, 0, 0, 0, 0, 0, 0, 0, 0, 0, 0, 0, 0]

/-- Row 7 of the literal 50 x 50 constraint matrix `A` hardcoded in `MPC::executeOptimization` (mpc.cpp:669-718). -/
def hardArow7 : List ℚ := [0, 0, 0, 0, 0, 0, -1, 1, 0, 0, 0, 0, 0, 0, 0, 0, 0, 0, 0, 0, 0, 0, 0, 0, 0, 0, 0, 0, 0, 0, 0, 0, 0, 0, 0, 0, 0, 0, 0, 0, 0, 0, 0, 0, 0, 0, 0, 0, 0, 0]

/-- Row 8 of the literal 50 x 50 constraint matrix `A` hardcoded in `MPC::executeOptimization` (mpc.cpp:669-718). -/
def hardArow8 : List ℚ := [0, 0, 0, 0, 0, 0, 0, -1, 1, 0, 0, 0, 0, 0, 0, 0, 0, 0, 0, 0, 0, 0, 0, 0, 0, 0, 0, 0, 0, 0, 0, 0, 0, 0, 0, 0, 0, 0, 0, 0, 0, 0, 0, 0, 0, 0, 0, 0, 0, 0]

/-- Row 9 of the literal 50 x 50 constraint matrix `A` hardcoded in `MPC::executeOptimization` (mpc.cpp:669-718). -/
def hardArow9 : List ℚ := [0, 0, 0, 0, 0, 0, 0, 0, -1, 1, 0, 0, 0, 0, 0, 0, 0, 0, 0, 0, 0, 0, 0, 0, 0, 0, 0, 0, 0, 0, 0, 0, 0, 0, 0, 0, 0, 0, 0, 0, 0, 0, 0, 0, 0, 0, 0, 0, 0, 0]

/-- Row 10 of the literal 50 x 50 constraint matrix `A` hardcoded in `MPC::executeOptimization` (mpc.cpp:669-718). -/
def hardArow10 : List ℚ := [0, 0, 0, 0, 0, 0, 0, 0, 0, -1, 1, 0, 0, 0, 0, 0, 0, 0, 0, 0, 0, 0, 0, 0, 0, 0, 0, 0, 0, 0, 0, 0, 0, 0, 0, 0, 0, 0, 0, 0, 0, 0, 0, 0, 0, 0, 0, 0, 0, 0]

/-- Row 11 of the literal 50 x 50 constraint matrix `A` hardcoded in `MPC::executeOptimization` (mpc.cpp:669-718). -/
def hardArow11 : List ℚ := [0, 0, 0, 0, 0, 0, 0, 0, 0, 0, -1, 1, 0, 0, 0, 0, 0, 0, 0, 0, 0, 0, 0, 0, 0, 0, 0, 0, 0, 0, 0, 0, 0, 0, 0, 0, 0, 0, 0, 0, 0, 0, 0, 0, 0, 0, 0, 0, 0, 0]

/-- Row 12 of the literal 50 x 50 constraint matrix `A` hardcoded in `MPC::executeOptimization` (mpc.cpp:669-718). -/
def hardArow12 : List ℚ := [0, 0, 0, 0, 0, 0, 0, 0, 0, 0, 0, -1, 1, 0, 0, 0, 0, 0, 0, 0, 0, 0, 0, 0, 0, 0, 0, 0, 0, 0, 0, 0, 0, 0, 0, 0, 0, 0, 0, 0, 0, 0, 0, 0, 0, 0, 0, 0, 0, 0]

/-- Row 13 of the literal 50 x 50 constraint matrix `A` hardcoded in `MPC::executeOptimization` (mpc.cpp:669-718). -/
def hardArow13 : List ℚ := [0, 0, 0, 0, 0, 0, 0, 0, 0, 0, 0, 0, -1, 1, 0, 0, 0, 0, 0, 0, 0, 0, 0, 0, 0, 0, 0, 0, 0, 0, 0, 0, 0, 0, 0, 0, 0, 0, 0, 0, 0, 0, 0, 0, 0, 0, 0, 0, 0, 0]

/-- Row 14 of the literal 50 x 50 constraint matrix `A` hardcoded in `MPC::executeOptimization` (mpc.cpp:669-718). -/
def hardArow14 : List ℚ := [0, 0, 0, 0, 0, 0, 0, 0, 0, 0, 0, 0, 0, -1, 1, 0, 0, 0, 0, 0, 0, 0, 0, 0, 0, 0, 0, 0, 0, 0, 0, 0, 0, 0, 0, 0, 0, 0, 0, 0, 0, 0, 0, 0, 0, 0, 0, 0, 0, 0]

/-- Row 15 of the literal 50 x 50 constraint matrix `A` hardcoded in `MPC::executeOptimization` (mpc.cpp:669-718). -/
def hardArow15 : List ℚ := [0, 0, 0, 0, 0, 0, 0, 0, 0, 0, 0, 0, 0, 0, -1, 1, 0, 0, 0, 0, 0, 0, 0, 0, 0, 0, 0, 0, 0, 0, 0, 0, 0, 0, 0, 0, 0, 0, 0, 0, 0, 0, 0, 0, 0, 0, 0, 0, 0, 0]

/-- Row 16 of the literal 50 x 50 constraint matrix `A` hardcoded in `MPC::executeOptimization` (mpc.cpp:669-718). -/
def hardArow16 : List ℚ := [0, 0, 0, 0, 0, 0, 0, 0, 0, 0, 0, 0, 0, 0, 0, -1, 1, 0, 0, 0, 0, 0, 0, 0, 0, 0, 0, 0, 0, 0, 0, 0, 0, 0, 0, 0, 0, 0, 0, 0, 0, 0, 0, 0, 0, 0, 0, 0, 0, 0]

/-- Row 17 of the literal 50 x 50 constraint matrix `A` hardcoded in `MPC::executeOptimization` (mpc.cpp:669-718). -/
def hardArow17 : List ℚ := [0, 0, 0, 0, 0, 0, 0, 0, 0, 0, 0, 0, 0, 0, 0, 0, -1, 1, 0, 0, 0, 0, 0, 0, 0, 0, 0, 0, 0, 0, 0, 0, 0, 0, 0, 0, 0, 0, 0, 0, 0, 0, 0, 0, 0, 0, 0, 0, 0, 0]

/-- Row 18 of the literal 50 x 50 constraint matrix `A` hardcoded in `MPC::executeOptimization` (mpc.cpp:669-718). -/
def hardArow18 : List ℚ := [0, 0, 0, 0, 0, 0, 0, 0, 0, 0, 0, 0, 0, 0, 0, 0, 0, -1, 1, 0, 0, 0, 0, 0, 0, 0, 0, 0, 0, 0, 0, 0, 0, 0, 0, 0, 0, 0, 0, 0, 0, 0, 0, 0, 0, 0, 0, 0, 0, 0]

/-- Row 19 of the literal 50 x 50 constraint matrix `A` hardcoded in `MPC::executeOptimization` (mpc.cpp:669-718). -/
def hardArow19 : List ℚ := [0, 0, 0, 0, 0, 0, 0, 0, 0, 0, 0, 0, 0, 0, 0, 0, 0, 0, -1, 1, 0, 0, 0, 0, 0, 0, 0, 0, 0, 0, 0, 0, 0, 0, 0, 0, 0, 0, 0, 0, 0, 0, 0, 0, 0, 0, 0, 0, 0, 0]

/-- Row 20 of the literal 50 x 50 constraint matrix `A` hardcoded in `MPC::executeOptimization` (mpc.cpp:669-718). -/
def hardArow20 : List ℚ := [0, 0, 0, 0, 0, 0, 0, 0, 0, 0, 0, 0, 0, 0, 0, 0, 0, 0, 0, -1, 1, 0, 0, 0, 0, 0, 0, 0, 0, 0, 0, 0, 0, 0, 0, 0, 0, 0, 0, 0, 0, 0, 0, 0, 0, 0, 0, 0, 0, 0]

/-- Row 21 of the literal 50 x 50 constraint matrix `A` hardcoded in `MPC::executeOptimization` (mpc.cpp:669-718). -/
def hardArow21 : List ℚ := [0, 0, 0, 0, 0, 0, 0, 0, 0, 0, 0, 0, 0, 0, 0, 0, 0, 0, 0, 0, -1, 1, 0, 0, 0, 0, 0, 0, 0, 0, 0, 0, 0, 0, 0, 0, 0, 0, 0, 0, 0, 0, 0, 0, 0, 0, 0, 0, 0, 0]

/-- Row 22 of the literal 50 x 50 constraint matrix `A` hardcoded in `MPC::executeOptimization` (mpc.cpp:669-718). -/
def hardArow22 : List ℚ := [0, 0, 0, 0, 0, 0, 0, 0, 0, 0, 0, 0, 0, 0, 0, 0, 0, 0, 0, 0, 0, -1, 1, 0, 0, 0, 0, 0, 0, 0, 0, 0, 0, 0, 0, 0, 0, 0, 0, 0, 0, 0, 0, 0, 0, 0, 0, 0, 0, 0]

/-- Row 23 of the literal 50 x 50 constraint matrix `A` hardcoded in `MPC::executeOptimization` (mpc.cpp:669-718). -/
def hardArow23 : List ℚ := [0, 0, 0, 0, 0, 0, 0, 0, 0, 0, 0, 0, 0, 0, 0, 0, 0, 0, 0, 0, 0, 0, -1, 1, 0, 0, 0, 0, 0, 0, 0, 0, 0, 0, 0, 0, 0, 0, 0, 0, 0, 0, 0, 0, 0, 0, 0, 0, 0, 0]

/-- Row 24 of the literal 50 x 50 constraint matrix `A` hardcoded in `MPC::executeOptimization` (mpc.cpp:669-718). -/
def hardArow24 : List ℚ := [0, 0, 0, 0, 0, 0, 0, 0, 0, 0, 0, 0, 0, 0, 0, 0, 0, 0, 0, 0, 0, 0, 0, -1, 1, 0, 0, 0, 0, 0, 0, 0, 0, 0, 0, 0, 0, 0, 0, 0, 0, 0, 0, 0, 0, 0, 0, 0, 0, 0]

/-- Row 25 of the literal 50 x 50 constraint matrix `A` hardcoded in `MPC::executeOptimization` (mpc.cpp:669-718). -/
def hardArow25 : List ℚ := [0, 0, 0, 0, 0, 0, 0, 0, 0, 0, 0, 0, 0, 0, 0, 0, 0, 0, 0, 0, 0, 0, 0, 0, -1, 1, 0, 0, 0, 0, 0, 0, 0, 0, 0, 0, 0, 0, 0, 0, 0, 0, 0, 0, 0, 0, 0, 0, 0, 0]

/-- Row 26 of the literal 50 x 50 constraint matrix `A` hardcoded in `MPC::executeOptimization` (mpc.cpp:669-718). -/
def hardArow26 : List ℚ := [0, 0, 0, 0, 0, 0, 0, 0, 0, 0, 0, 0, 0, 0, 0, 0, 0, 0, 0, 0, 0, 0, 0, 0, 0, -1, 1, 0, 0, 0, 0, 0, 0, 0, 0, 0, 0, 0, 0, 0, 0, 0, 0, 0, 0, 0, 0, 0, 0, 0]

/-- Row 27 of the literal 50 x 50 constraint matrix `A` hardcoded in `MPC::executeOptimization` (mpc.cpp:669-718). -/
def hardArow27 : List ℚ := [0, 0, 0, 0, 0, 0, 0, 0, 0, 0, 0, 0, 0, 0, 0, 0, 0, 0, 0, 0, 0, 0, 0, 0, 0, 0, -1, 1, 0, 0, 0, 0, 0, 0, 0, 0, 0, 0, 0, 0, 0, 0, 0, 0, 0, 0, 0, 0, 0, 0]

/-- Row 28 of the literal 50 x 50 constraint matrix `A` hardcoded in `MPC::executeOptimization` (mpc.cpp:669-718). -/
def hardArow28 : List ℚ := [0, 0, 0, 0, 0, 0, 0, 0, 0, 0, 0, 0, 0, 0, 0, 0, 0, 0, 0, 0, 0, 0, 0, 0, 0, 0, 0, -1, 1, 0, 0, 0, 0, 0, 0, 0, 0, 0, 0, 0, 0, 0, 0, 0, 0, 0, 0, 0, 0, 0]

/-- Row 29 of the literal 50 x 50 constraint matrix `A` hardcoded in `MPC::executeOptimization` (mpc.cpp:669-718). -/
def hardArow29 : List ℚ := [0, 0, 0, 0, 0, 0, 0, 0, 0, 0, 0, 0, 0, 0, 0, 0, 0, 0, 0, 0, 0, 0, 0, 0, 0, 0, 0, 0, -1, 1, 0, 0, 0, 0, 0, 0, 0, 0, 0, 0, 0, 0, 0, 0, 0, 0, 0, 0, 0, 0]

/-- Row 30 of the literal 50 x 50 constraint matrix `A` hardcoded in `MPC::executeOptimization` (mpc.cpp:669-718). -/
def hardArow30 : List ℚ := [0, 0, 0, 0, 0, 0, 0, 0, 0, 0, 0, 0, 0, 0, 0, 0, 0, 0, 0, 0, 0, 0, 0, 0, 0, 0, 0, 0, 0, -1, 1, 0, 0, 0, 0, 0, 0, 0, 0, 0, 0, 0, 0, 0, 0, 0, 0, 0, 0, 0]

/-- Row 31 of the literal 50 x 50 constraint matrix `A` hardcoded in `MPC::executeOptimization` (mpc.cpp:669-718). -/
def hardArow31 : List ℚ := [0, 0, 0, 0, 0, 0, 0, 0, 0, 0, 0, 0, 0, 0, 0, 0, 0, 0, 0, 0, 0, 0, 0, 0, 0, 0, 0, 0, 0, 0, -1, 1, 0, 0, 0, 0, 0, 0, 0, 0, 0, 0, 0, 0, 0, 0, 0, 0, 0, 0]

/-- Row 32 of the literal 50 x 50 constraint matrix `A` hardcoded in `MPC::executeOptimization` (mpc.cpp:669-718). -/
def hardArow32 : List ℚ := [0, 0, 0, 0, 0, 0, 0, 0, 0, 0, 0, 0, 0, 0, 0, 0, 0, 0, 0, 0, 0, 0, 0, 0, 0, 0, 0, 0, 0, 0, 0, -1, 1, 0, 0, 0, 0, 0, 0, 0, 0, 0, 0, 0, 0, 0, 0, 0, 0, 0]

/-- Row 33 of the literal 50 x 50 constraint matrix `A` hardcoded in `MPC::executeOptimization` (mpc.cpp:669-718). -/
def hardArow33 : List ℚ := [0, 0, 0, 0, 0, 0, 0, 0, 0, 0, 0, 0, 0, 0, 0, 0, 0, 0, 0, 0, 0, 0, 0, 0, 0, 0, 0, 0, 0, 0, 0, 0, -1, 1, 0, 0, 0, 0, 0, 0, 0, 0, 0, 0, 0, 0, 0, 0, 0, 0]

/-- Row 34 of the literal 50 x 50 constraint matrix `A` hardcoded in `MPC::executeOptimization` (mpc.cpp:669-718). -/
def hardArow34 : List ℚ := [0, 0, 0, 0, 0, 0, 0, 0, 0, 0, 0, 0, 0, 0, 0, 0, 0, 0, 0, 0, 0, 0, 0, 0, 0, 0, 0, 0, 0, 0, 0, 0, 0, -1, 1, 0, 0, 0, 0, 0, 0, 0, 0, 0, 0, 0, 0, 0, 0, 0]

/-- Row 35 of the literal 50 x 50 constraint matrix `A` hardcoded in `MPC::executeOptimization` (mpc.cpp:669-718). -/
def hardArow35 : List ℚ := [0, 0, 0, 0, 0, 0, 0, 0, 0, 0, 0, 0, 0, 0, 0, 0, 0, 0, 0, 0, 0, 0, 0, 0, 0, 0, 0, 0, 0, 0, 0, 0, 0, 0, -1, 1, 0, 0, 0, 0, 0, 0, 0, 0, 0, 0, 0, 0, 0, 0]

/-- Row 36 of the literal 50 x 50 constraint matrix `A` hardcoded in `MPC::executeOptimization` (mpc.cpp:669-718). -/
def hardArow36 : List ℚ := [0, 0, 0, 0, 0, 0, 0, 0, 0, 0, 0, 0, 0, 0, 0, 0, 0, 0, 0, 0, 0, 0, 0, 0, 0, 0, 0, 0, 0, 0, 0, 0, 0, 0, 0, -1, 1, 0, 0, 0, 0, 0, 0, 0, 0, 0, 0, 0, 0, 0]

/-- Row 37 of the literal 50 x 50 constraint matrix `A` hardcoded in `MPC::executeOptimization` (mpc.cpp:669-718). -/
def hardArow37 : List ℚ := [0, 0, 0, 0, 0, 0, 0, 0, 0, 0, 0, 0, 0, 0, 0, 0, 0, 0, 0, 0, 0, 0, 0, 0, 0, 0, 0, 0, 0, 0, 0, 0, 0, 0, 0, 0, -1, 1, 0, 0, 0, 0, 0, 0, 0, 0, 0, 0, 0, 0]

/-- Row 38 of the literal 50 x 50 constraint matrix `A` hardcoded in `MPC::executeOptimization` (mpc.cpp:669-718). -/
def hardArow38 : List ℚ := [0, 0, 0, 0, 0, 0, 0, 0, 0, 0, 0, 0, 0, 0, 0, 0, 0, 0, 0, 0, 0, 0, 0, 0, 0, 0, 0, 0, 0, 0, 0, 0, 0, 0, 0, 0, 0, -1, 1, 0, 0, 0, 0, 0, 0, 0, 0, 0, 0, 0]

/-- Row 39 of the literal 50 x 50 constraint matrix `A` hardcoded in `MPC::executeOptimization` (mpc.cpp:669-718). -/
def hardArow39 : List ℚ := [0, 0, 0, 0, 0, 0, 0, 0, 0, 0, 0, 0, 0, 0, 0, 0, 0, 0, 0, 0, 0, 0, 0, 0, 0, 0, 0, 0, 0, 0, 0, 0, 0, 0, 0, 0, 0, 0, -1, 1, 0, 0, 0, 0, 0, 0, 0, 0, 0, 0]

/-- Row 40 of the literal 50 x 50 constraint matrix `A` hardcoded in `MPC::executeOptimization` (mpc.cpp:669-718). -/
def hardArow40 : List ℚ := [0, 0, 0, 0, 0, 0, 0, 0, 0, 0, 0, 0, 0, 0, 0, 0, 0, 0, 0, 0, 0, 0, 0, 0, 0, 0, 0, 0, 0, 0, 0, 0, 0, 0, 0, 0, 0, 0, 0, -1, 1, 0, 0, 0, 0, 0, 0, 0, 0, 0]

/-- Row 41 of the literal 50 x 50 constraint matrix `A` hardcoded in `MPC::executeOptimization` (mpc.cpp:669-718). -/
def hardArow41 : List ℚ := [0, 0, 0, 0, 0, 0, 0, 0, 0, 0, 0, 0, 0, 0, 0, 0, 0, 0, 0, 0, 0, 0, 0, 0, 0, 0, 0, 0, 0, 0, 0, 0, 0, 0, 0, 0, 0, 0, 0, 0, -1, 1, 0, 0, 0, 0, 0, 0, 0, 0]

/-- Row 42 of the literal 50 x 50 constraint matrix `A` hardcoded in `MPC::executeOptimization` (mpc.cpp:669-718). -/
def hardArow42 : List ℚ := [0, 0, 0, 0, 0, 0, 0, 0, 0, 0, 0, 0, 0, 0, 0, 0, 0, 0, 0, 0, 0, 0, 0, 0, 0, 0, 0, 0, 0, 0, 0, 0, 0, 0, 0, 0, 0, 0, 0, 0, 0, -1, 1, 0, 0, 0, 0, 0, 0, 0]

/-- Row 43 of the literal 50 x 50 constraint matrix `A` hardcoded in `MPC::executeOptimization` (mpc.cpp:669-718). -/
def hardArow43 : List ℚ := [0, 0, 0, 0, 0, 0, 0, 0, 0, 0, 0, 0, 0, 0, 0, 0, 0, 0, 0, 0, 0, 0, 0, 0, 0, 0, 0, 0, 0, 0, 0, 0, 0, 0, 0, 0, 0, 0, 0, 0, 0, 0, -1, 1, 0, 0, 0, 0, 0, 0]

/-- Row 44 of the literal 50 x 50 constraint matrix `A` hardcoded in `MPC::executeOptimization` (mpc.cpp:669-718). -/
def hardArow44 : List ℚ := [0, 0, 0, 0, 0, 0, 0, 0, 0, 0, 0, 0, 0, 0, 0, 0, 0, 0, 0, 0, 0, 0, 0, 0, 0, 0, 0, 0, 0, 0, 0, 0, 0, 0, 0, 0, 0, 0, 0, 0, 0, 0, 0, -1, 1, 0, 0, 0, 0, 0]

/-- Row 45 of the literal 50 x 50 constraint matrix `A` hardcoded in `MPC::executeOptimization` (mpc.cpp:669-718). -/
def hardArow45 : List ℚ := [0, 0, 0, 0, 0, 0, 0, 0, 0, 0, 0, 0, 0, 0, 0, 0, 0, 0, 0, 0, 0, 0, 0, 0, 0, 0, 0, 0, 0, 0, 0, 0, 0, 0, 0, 0, 0, 0, 0, 0, 0, 0, 0, 0, -1, 1, 0, 0, 0, 0]

/-- Row 46 of the literal 50 x 50 constraint matrix `A` hardcoded in `MPC::executeOptimization` (mpc.cpp:669-718). -/
def hardArow46 : List ℚ := [0, 0, 0, 0, 0, 0, 0, 0, 0, 0, 0, 0, 0, 0, 0, 0, 0, 0, 0, 0, 0, 0, 0, 0, 0, 0, 0, 0, 0, 0, 0, 0, 0, 0, 0, 0, 0, 0, 0, 0, 0, 0, 0, 0, 0, -1, 1, 0, 0, 0]

/-- Row 47 of the literal 50 x 50 constraint matrix `A` hardcoded in `MPC::executeOptimization` (mpc.cpp:669-718). -/
def hardArow47 : List ℚ := [0, 0, 0, 0, 0, 0, 0, 0, 0, 0, 0, 0, 0, 0, 0, 0, 0, 0, 0, 0, 0, 0, 0, 0, 0, 0, 0, 0, 0, 0, 0, 0, 0, 0, 0, 0, 0, 0, 0, 0, 0, 0, 0, 0, 0, 0, -1, 1, 0, 0]

/-- Row 48 of the literal 50 x 50 constraint matrix `A` hardcoded in `MPC::executeOptimization` (mpc.cpp:669-718). -/
def hardArow48 : List ℚ := [0, 0, 0, 0, 0, 0, 0, 0, 0, 0, 0, 0, 0, 0, 0, 0, 0, 0, 0, 0, 0, 0, 0, 0, 0, 0, 0, 0, 0, 0, 0, 0, 0, 0, 0, 0, 0, 0, 0, 0, 0, 0, 0, 0, 0, 0, 0, -1, 1, 0]

/-- Row 49 of the literal 50 x 50 constraint matrix `A` hardcoded in `MPC::executeOptimization` (mpc.cpp:669-718). -/
def hardArow49 : List ℚ := [0, 0, 0, 0, 0, 0, 0, 0, 0, 0, 0, 0, 0, 0, 0, 0, 0, 0, 0, 0, 0, 0, 0, 0, 0, 0, 0, 0, 0, 0, 0, 0, 0, 0, 0, 0, 0, 0, 0, 0, 0, 0, 0, 0, 0, 0, 0, 0, -1, 1]

/-- The literal `A` of `MPC::executeOptimization`, assembled from its rows. -/
def hardArows : List (List ℚ) := [hardArow0, hardArow1, hardArow2, hardArow3, hardArow4, hardArow5, hardArow6, hardArow7, hardArow8, hardArow9, hardArow10, hardArow11, hardArow12, hardArow13, hardArow14, hardArow15, hardArow16, hardArow17, hardArow18, hardArow19, hardArow20, hardArow21, hardArow22, hardArow23, hardArow24, hardArow25, hardArow26, hardArow27, hardArow28, hardArow29, hardArow30, hardArow31, hardArow32, hardArow33, hardArow34, hardArow35, hardArow36, hardArow37, hardArow38, hardArow39, hardArow40, hardArow41, hardArow42, hardArow43, hardArow44, hardArow45, hardArow46, hardArow47, hardArow48, hardArow49]

/-- The literal 50 x 1 lower bound `lb` hardcoded in `MPC::executeOptimization` (mpc.cpp:721-770). -/
def hardLbCol : List ℚ := [-0.7, -0.7, -0.7, -0.7, -0.7, -0.7, -0.7, -0.7, -0.7, -0.7, -0.7, -0.7, -0.7, -0.7, -0.7, -0.7, -0.7, -0.7, -0.7, -0.7, -0.7, -0.7, -0.7, -0.7, -0.7, -0.7, -0.7, -0.7, -0.7, -0.7, -0.7, -0.7, -0.7, -0.7, -0.7, -0.7, -0.7, -0.7, -0.7, -0.7, -0.7, -0.7, -0.7, -0.7, -0.7, -0.7, -0.7, -0.7, -0.7, -0.7]

/-- The literal 50 x 1 upper bound `ub` hardcoded in `MPC::executeOptimization` (mpc.cpp:772-821). -/
def hardUbCol : List ℚ := [0.7, 0.7, 0.7, 0.7, 0.7, 0.7, 0.7, 0.7, 0.7, 0.7, 0.7, 0.7, 0.7, 0.7, 0.7, 0.7, 0.7, 0.7, 0.7, 0.7, 0.7, 0.7, 0.7, 0.7, 0.7, 0.7, 0.7, 0.7, 0.7, 0.7, 0.7, 0.7, 0.7, 0.7, 0.7, 0.7, 0.7, 0.7, 0.7, 0.7, 0.7, 0.7, 0.7, 0.7, 0.7, 0.7, 0.7, 0.7, 0.7, 0.7]

/-- The literal 50 x 1 constraint lower bound `lbA` hardcoded in `MPC::executeOptimization` (mpc.cpp:823-872). -/
def hardLbACol : List ℚ := [-0.022612, -0.0943183, -0.0947408, -0.0951632, -0.0955856, -0.0960081, -0.0964305, -0.0968748, -0.0973306, -0.0977864, -0.0982422, -0.0986979, -0.0991537, -0.0996095, -0.100065, -0.100901, -0.102576, -0.104252, -0.104797, -0.105076, -0.105429, -0.105815, -0.106251, -0.106762, -0.107324, -0.107944, -0.108627, -0.109345, -0.110009, -0.110571, -0.110995, -0.111277, -0.111414, -0.111385, -0.111186, -0.110788, -0.110203, -0.109409, -0.108455, -0.107447, -0.106401, -0.105314, -0.101557, -0.0946047, -0.104894, -0.109788, -0.118091, -0.125476, -0.125476, -0.125476]

/-- The literal 50 x 1 constraint upper bound `ubA` hardcoded in `MPC::executeOptimization` (mpc.cpp:875-924). -/
def hardUbACol : List ℚ := [0.0244062, 0.0943183, 0.0947408, 0.0951632, 0.0955856, 0.0960081, 0.0964305, 0.0968748, 0.0973306, 0.0977864, 0.0982422, 0.0986979, 0.0991537, 0.0996095, 0.100065, 0.100901, 0.102576, 0.104252, 0.104797, 0.105076, 0.105429, 0.105815, 0.106251, 0.106762, 0.107324, 0.107944, 0.108627, 0.109345, 0.110009, 0.110571, 0.110995, 0.111277, 0.111414, 0.111385, 0.111186, 0.110788, 0.110203, 0.109409, 0.108455, 0.107447, 0.106401, 0.105314, 0.101557, 0.0946047, 0.104894, 0.109788, 0.118091, 0.125476, 0.125476, 0.125476]

/-- The stacked prediction matrices `MPCMatrix` built by
`MPC::generateMPCMatrix`. -/
structure MPCMatrixT where
  Aex : Mat
  Bex : Mat
  Wex : Mat
  Cex : Mat
  Qex : Mat
  R1ex : Mat
  R2ex : Mat
  Uref_ex : Mat

/-- The literal `H` of `MPC::executeOptimization` as a flat matrix. -/
def hardH : Mat := fun i j => (hardHrows.getD i []).getD j 0

/-- The literal `f` of `MPC::executeOptimization` as a flat 1 × 50 matrix. -/
def hardF : Mat := fun i j => if i = 0 then hardFrow.getD j 0 else 0

/-- The literal `A` of `MPC::executeOptimization` as a flat matrix. -/
def hardA : Mat := fun i j => (hardArows.getD i []).getD j 0

/-- The literal `lb` of `MPC::executeOptimization` as a flat 50 × 1 matrix. -/
def hardLb : Mat := fun i j => if j = 0 then hardLbCol.getD i 0 else 0

/-- The literal `ub` of `MPC::executeOptimization` as a flat 50 × 1 matrix. -/
def hardUb : Mat := fun i j => if j = 0 then hardUbCol.getD i 0 else 0

/-- The literal `lbA` of `MPC::executeOptimization` as a flat 50 × 1 matrix. -/
def hardLbA : Mat := fun i j => if j = 0 then hardLbACol.getD i 0 else 0

/-- The literal `ubA` of `MPC::executeOptimization` as a flat 50 × 1 matrix. -/
def hardUbA : Mat := fun i j => if j = 0 then hardUbACol.getD i 0 else 0

/-- The QP problem that `MPC::executeOptimization` (mpc.cpp:927) hands to
`m_qpsolver_ptr->solve(H, f.transpose(), A, lb, ub, lbA, ubA, Uex)`: it is
built entirely from the literals above, not from the function's arguments. -/
def hardQP : QPProblem :=
  { H := hardH, f := matTrans hardF, A := hardA,
    lb := hardLb, ub := hardUb, lbA := hardLbA, ubA := hardUbA }

/-- `MPC::executeOptimization` (mpc.cpp:560-952): hands the literal QP
problem `hardQP` to the solver, fails on solver failure or a NaN in the
solution, and otherwise returns the solution. The parameters `m`, `x0`,
`prediction_dt`, `traj` and `current_velocity` are declared by the source
but never read on the path to the solver call. -/
def executeOptimization (env : MPCEnv) (m : MPCMatrixT) (x0 : Vec)
    (prediction_dt : ℚ) (traj : MPCTraj) (current_velocity : ℚ) : Option Vec :=
  match env.qpsolve hardQP with
  | none => none
  | some out => if out.hasNaN then none else some out.Uex

/-- Initial value of the stacked MPC matrices: all zero, mirroring the
`MatrixXd::Zero` initializations in `MPC::generateMPCMatrix`
(mpc.cpp:440-447). -/
def mpcMatInit : MPCMatrixT :=
  { Aex := zeroMat, Bex := zeroMat, Wex := zeroMat, Cex := zeroMat,
    Qex := zeroMat, R1ex := zeroMat, R2ex := zeroMat, Uref_ex := zeroMat }

/-- Iteration `i` of the prediction loop of `MPC::generateMPCMatrix`
(mpc.cpp:464-522): linearize the model at step `i`, compute the adaptive
weights, write the stacked blocks (recursively for `i ≥ 1`), and store the
dead-banded feed-forward reference input. -/
def genStep (env : MPCEnv) (cfg : MPCCfg) (traj : MPCTraj) (DT : ℚ)
    (i : ℕ) (m : MPCMatrixT) : MPCMatrixT :=
  let N := cfg.prediction_horizon
  let nx := cfg.dimX
  let nu := cfg.dimU
  let ny := cfg.dimY
  let sign_vx : ℚ := if cfg.is_forward_shift then 1 else -1
  let ref_vx := traj.vx.getD i 0
  let ref_vx_squared := ref_vx * ref_vx
  let ref_k := traj.k.getD i 0 * sign_vx
  let ref_smooth_k := traj.smooth_k.getD i 0 * sign_vx
  let M := env.discreteMat ref_vx ref_k DT
  let Ad := M.1
  let Bd := M.2.1
  let Cd := M.2.2.1
  let Wd := M.2.2.2
  let w := env.getWeight ref_k
  let Q : Mat := fun a b =>
    if a = 0 ∧ b = 0 then w.lat_error
    else if a = 1 ∧ b = 1 then w.heading_error else 0
  let R : Mat := fun a b => if a = 0 ∧ b = 0 then w.steering_input else 0
  let Qterm : Mat :=
    if i = N - 1 then fun a b =>
      if a = 0 ∧ b = 0 then cfg.nominal_terminal_lat_error
      else if a = 1 ∧ b = 1 then cfg.nominal_terminal_heading_error
      else Q a b
    else Q
  let Q_adaptive : Mat := fun a b =>
    if a = 1 ∧ b = 1 then Qterm a b + ref_vx_squared * w.heading_error_squared_vel
    else Qterm a b
  let R_adaptive : Mat := fun a b =>
    if a = 0 ∧ b = 0 then R a b + ref_vx_squared * w.steering_input_squared_vel
    else R a b
  let idx_x_i := i * nx
  let idx_x_i_prev := (i - 1) * nx
  let idx_u_i := i * nu
  let idx_y_i := i * ny
  let m1 :=
    if i = 0 then
      { m with Aex := setBlock m.Aex 0 0 nx nx Ad,
               Bex := setBlock m.Bex 0 0 nx nu Bd,
               Wex := setBlock m.Wex 0 0 nx 1 Wd }
    else
      { m with
        Aex := setBlock m.Aex idx_x_i 0 nx nx
          (matMul Ad (blockAt m.Aex idx_x_i_prev 0) nx),
        Bex := (List.range i).foldl (fun B j =>
          setBlock B idx_x_i (j * nu) nx nu
            (matMul Ad (blockAt B idx_x_i_prev (j * nu)) nx)) m.Bex,
        Wex := setBlock m.Wex idx_x_i 0 nx 1
          (matAdd (matMul Ad (blockAt m.Wex idx_x_i_prev 0) nx) Wd) }
  let Uref0 := env.refInput ref_vx ref_smooth_k
  let Uref : Mat :=
    if |Uref0 0 0| < env.deg2rad cfg.zero_ff_steer_deg then
      fun a b => if a = 0 ∧ b = 0 then 0 else Uref0 a b
    else Uref0
  { m1 with
    Bex := setBlock m1.Bex idx_x_i idx_u_i nx nu Bd,
    Cex := setBlock m1.Cex idx_y_i idx_x_i ny nx Cd,
    Qex := setBlock m1.Qex idx_y_i idx_y_i ny ny Q_adaptive,
    R1ex := setBlock m1.R1ex idx_u_i idx_u_i nu nu R_adaptive,
    Uref_ex := setBlock m1.Uref_ex (i * nu) 0 nu 1 Uref }

/-- The first `t` iterations of the prediction loop of
`MPC::generateMPCMatrix`; the source runs it for `t = N`. -/
def genLoop (env : MPCEnv) (cfg : MPCCfg) (traj : MPCTraj) (DT : ℚ) :
    ℕ → MPCMatrixT
  | 0 => mpcMatInit
  | t + 1 => genStep env cfg traj DT t (genLoop env cfg traj DT t)

/-- The lateral-jerk loop of `MPC::generateMPCMatrix` (mpc.cpp:525-531):
adds `(v²·w_jerk/DT²)·[[1,-1],[-1,1]]` to the `2 × 2` diagonal blocks of
`R2ex`. -/
def addLateralJerk (env : MPCEnv) (cfg : MPCCfg) (traj : MPCTraj) (DT : ℚ)
    (m : MPCMatrixT) : MPCMatrixT :=
  let sign_vx : ℚ := if cfg.is_forward_shift then 1 else -1
  (List.range (cfg.prediction_horizon - 1)).foldl (fun mm i =>
    let ref_vx := traj.vx.getD i 0
    let ref_k := traj.k.getD i 0 * sign_vx
    let j := ref_vx * ref_vx * (env.getWeight ref_k).lat_jerk / (DT * DT)
    let J : Mat := fun a b => if a = b then j else -j
    { mm with R2ex := addBlock mm.R2ex i i 2 2 J }) m

/-- Pointwise `M(r, c) += v`, mirroring scalar compound assignment on an
Eigen matrix entry. -/
def addEntry (M : Mat) (r c : ℕ) (v : ℚ) : Mat := fun i j =>
  if i = r ∧ j = c then M i j + v else M i j

/-- `MPC::addSteerWeightR` (mpc.cpp:954-995): fold the steering-rate and
steering-acceleration regularization into `R1ex`, with the `i = 0` boundary
terms using the control period instead of the prediction step. -/
def addSteerWeightR (cfg : MPCCfg) (prediction_dt : ℚ) (Rin : Mat) : Mat :=
  let N := cfg.prediction_horizon
  let DT := prediction_dt
  let ctp := cfg.ctrl_period
  let steer_rate_r := cfg.nominal_steer_rate / (DT * DT)
  let D2 : Mat := fun a b => if a = b then steer_rate_r else -steer_rate_r
  let R1 := (List.range (N - 1)).foldl (fun R i => addBlock R i i 2 2 D2) Rin
  let R2 := if 1 < N then addEntry R1 0 0 (cfg.nominal_steer_rate / (ctp * ctp)) else R1
  let w := cfg.nominal_steer_acc
  let steer_acc_r := w / (DT * DT * DT * DT)
  let steer_acc_r_cp1 := w / (DT * DT * DT * ctp)
  let steer_acc_r_cp2 := w / (DT * DT * (ctp * ctp))
  let steer_acc_r_cp4 := w / (ctp * ctp * ctp * ctp)
  let pv : ℕ → ℚ := fun a => if a = 1 then -2 else 1
  let D3 : Mat := fun a b => steer_acc_r * (pv a * pv b)
  let R3 := (List.range' 1 (N - 1 - 1)).foldl
    (fun R i => addBlock R (i - 1) (i - 1) 3 3 D3) R2
  if 1 < N then
    let R4 := addEntry R3 0 0 (steer_acc_r * 1 + steer_acc_r_cp2 * 1 + steer_acc_r_cp1 * 2)
    let R5 := addEntry R4 1 0 (steer_acc_r * (-1) + steer_acc_r_cp1 * (-1))
    let R6 := addEntry R5 0 1 (steer_acc_r * (-1) + steer_acc_r_cp1 * (-1))
    let R7 := addEntry R6 1 1 (steer_acc_r * 1)
    addEntry R7 0 0 (steer_acc_r_cp4 * 1)
  else R3

/-- `MPC::generateMPCMatrix` (mpc.cpp:430-536): the prediction loop, the
lateral-jerk loop, and the steering regularization folded into `R1ex`. -/
def generateMPCMatrix (env : MPCEnv) (cfg : MPCCfg)
    (reference_trajectory : MPCTraj) (prediction_dt : ℚ) : MPCMatrixT :=
  let m := genLoop env cfg reference_trajectory prediction_dt cfg.prediction_horizon
  let m2 := addLateralJerk env cfg reference_trajectory prediction_dt m
  { m2 with R1ex := addSteerWeightR cfg prediction_dt m2.R1ex }

/-- `MPC::calcDesiredSteeringRate` (mpc.cpp:1057-1078): finite difference
for non-kinematics models, otherwise the predicted steering motion from
`Xex = Aex·x0 + Bex·Uex + Wex`. -/
def calcDesiredSteeringRate (env : MPCEnv) (cfg : MPCCfg) (m : MPCMatrixT)
    (x0 : Vec) (Uex : Vec) (u_filtered current_steer predict_dt : ℚ) : ℚ :=
  if cfg.model_kind ≠ ModelKind.kinematics then
    (u_filtered - current_steer) / predict_dt
  else
    let Xex : Vec := fun i =>
      (∑ j ∈ Finset.range cfg.dimX, m.Aex i j * x0 j) +
      (∑ j ∈ Finset.range (cfg.prediction_horizon * cfg.dimU), m.Bex i j * Uex j) +
      m.Wex i 0
    (Xex 2 - x0 2) / predict_dt

/-- `MPC::calculateMPC` (mpc.cpp:38-131): the full cycle as a state
transition. Returns the possibly-mutated member state and, on full
success, the steering command (`none` on any stage failure). The predicted
trajectory and diagnostic outputs, which no member state depends on, are
not modelled. -/
def calculateMPC (env : MPCEnv) (cfg : MPCCfg) (st : MPCState)
    (current_steer : SteeringRep) (kin : Odom) : MPCState × Option CtrlCmd :=
  let reference_trajectory :=
    applyVelocityDynamicsFilter env cfg st.reference_trajectory kin
  match getData env cfg reference_trajectory current_steer kin st.steering_predictor with
  | none => (st, none)
  | some mpc_data =>
    let x0st := getInitialState env cfg st mpc_data
    let x0 := x0st.1
    let st1 := x0st.2
    match updateStateForDelayCompensation env cfg reference_trajectory
        mpc_data.nearest_time x0 st1.input_buffer with
    | none => (st1, none)
    | some x0_delayed =>
      let mpc_start_time := mpc_data.nearest_time + cfg.input_delay
      let prediction_dt :=
        getPredictionDeltaTime env cfg mpc_start_time reference_trajectory kin
      match resampleMPCTrajectoryByTime env cfg mpc_start_time prediction_dt
          reference_trajectory with
      | none => (st1, none)
      | some mpc_resampled_ref_trajectory =>
        match getData env cfg mpc_resampled_ref_trajectory current_steer kin
            st1.steering_predictor with
        | none => (st1, none)
        | some _mpc_data_for_diagnostic =>
          match getData env cfg st1.traj_raw current_steer kin
              st1.steering_predictor with
          | none => (st1, none)
          | some _mpc_data_traj_raw =>
            let mpc_matrix :=
              generateMPCMatrix env cfg mpc_resampled_ref_trajectory prediction_dt
            match executeOptimization env mpc_matrix x0_delayed prediction_dt
                mpc_resampled_ref_trajectory kin.vx with
            | none => (st1, none)
            | some Uex =>
              let u_saturated := clampD (Uex 0) (-cfg.steer_lim) cfg.steer_lim
              let filt := env.lpfFilter st1.lpf_steering_cmd u_saturated
              let u_filtered := filt.1
              let steering_rate := calcDesiredSteeringRate env cfg mpc_matrix
                x0_delayed Uex u_filtered current_steer.steering_tire_angle
                prediction_dt
              let predictor2 := env.storeSteerCmd st1.steering_predictor u_filtered
              let buffer2 := (st1.input_buffer ++ [u_filtered]).drop 1
              let st2 :=
                { st1 with
                  lpf_steering_cmd := filt.2,
                  steering_predictor := predictor2,
                  input_buffer := buffer2,
                  raw_steer_cmd_pprev := st1.raw_steer_cmd_prev,
                  raw_steer_cmd_prev := Uex 0 }
              (st2, some { steering_tire_angle := u_filtered,
                           steering_tire_rotation_rate := steering_rate })

/-- The quadratic cost the spec prescribes for the QP step, built from the
cycle's stacked matrices: `H = Bexᵀ·Cexᵀ·Qex·Cex·Bex + R1ex + R2ex`
(spec §4.6). Stated from the spec's words for comparison with what the
source actually hands to the solver. -/
def specCostH (cfg : MPCCfg) (m : MPCMatrixT) : Mat :=
  let nX := cfg.prediction_horizon * cfg.dimX
  let nY := cfg.prediction_horizon * cfg.dimY
  let CB := matMul m.Cex m.Bex nX
  matAdd (matAdd (matMul (matTrans CB) (matMul m.Qex CB nY) nY) m.R1ex) m.R2ex

/-- Iterated control cycles: fold `calculateMPC` over a list of per-cycle
inputs, keeping the member state. -/
def runCycles (env : MPCEnv) (cfg : MPCCfg) :
    MPCState → List (SteeringRep × Odom) → MPCState
  | st, [] => st
  | st, p :: rest => runCycles env cfg (calculateMPC env cfg st p.1 p.2).1 rest

/-- Every cycle in the run returns a command (fully succeeds). -/
def allCyclesSucceed (env : MPCEnv) (cfg : MPCCfg) :
    MPCState → List (SteeringRep × Odom) → Prop
  | _, [] => True
  | st, p :: rest =>
    ((calculateMPC env cfg st p.1 p.2).2).isSome = true ∧
    allCyclesSucceed env cfg (calculateMPC env cfg st p.1 p.2).1 rest

/-- A short straight reference trajectory with strictly increasing times. -/
def trajW : MPCTraj :=
  { x := [0, 0], y := [0, 0], yaw := [0, 0], vx := [1, 1], k := [0, 0],
    smooth_k := [0, 0], relative_time := [0, 1] }

/-- A raw trajectory long enough in time for the horizon check. -/
def trajRawW : MPCTraj :=
  { x := [0, 0], y := [0, 0], yaw := [0, 0], vx := [1, 1], k := [0, 0],
    smooth_k := [0, 0], relative_time := [0, 100] }

/-- A concrete environment in which every stage succeeds; its low-pass
filter instance adds its stored state to the input (a persistent-state
filter whose output can exceed the magnitude of its input, as a
second-order filter's transient can), and its QP solver always returns the
constant solution 10. -/
def envBase : MPCEnv :=
  { nearestPoseInterp := fun _ _ _ _ => some ({ x := 0, y := 0, yaw := 0 }, 0, 0),
    calcLateralError := fun _ _ => 0,
    normalizeRadian := fun a => a,
    calcDistance2d := fun _ _ => 0,
    deg2rad := fun d => d,
    calcSteerPrediction := fun _ => 0,
    storeSteerCmd := fun l u => l ++ [u],
    lerp := fun _ _ _ => some 0,
    linearInterpMPCTraj := fun _ tr _ => some tr,
    discreteMat := fun _ _ _ => (zeroMat, zeroMat, zeroMat, zeroMat),
    refInput := fun _ _ => zeroMat,
    qpsolve := fun _ => some { Uex := fun _ => 10, hasNaN := false },
    getWeight := fun _ =>
      { lat_error := 0, heading_error := 0, steering_input := 0,
        heading_error_squared_vel := 0, steering_input_squared_vel := 0,
        lat_jerk := 0, steer_rate := 0, steer_acc := 0 },
    lpfFilter := fun s u => (u + s.headD 0, s),
    nearestSegIdx := fun _ _ => 0,
    nearestIdxSoft := fun _ _ => 0,
    dynSmooth := fun _ _ _ _ tr => tr,
    segDist := fun _ _ _ => 0 }

/-- `envBase` with a failing nearest-pose search: the first validation
stage fails on every cycle. -/
def envFailW : MPCEnv :=
  { envBase with nearestPoseInterp := fun _ _ _ _ => none }

/-- A concrete configuration: horizon 2, steering limit 1/2, generous
admissible errors, one-dimensional model without steering delay state. -/
def cfgW : MPCCfg :=
  { prediction_horizon := 2, prediction_dt := 1, min_prediction_length := 1,
    input_delay := 0, zero_ff_steer_deg := 0, acceleration_limit := 1,
    velocity_time_constant := 1, nominal_terminal_lat_error := 0,
    nominal_terminal_heading_error := 0, nominal_steer_rate := 0,
    nominal_steer_acc := 0, steer_lim := 1/2, ctrl_period := 1,
    admissible_position_error := 10, admissible_yaw_error_rad := 10,
    use_steer_prediction := false, is_forward_shift := true,
    ego_nearest_dist_threshold := 3, ego_nearest_yaw_threshold := 1,
    dimX := 1, dimU := 1, dimY := 1, model_kind := .kinematics_no_delay }

/-- A concrete member state whose steering-command filter carries the
residual state 1 from earlier cycles. -/
def stW : MPCState :=
  { input_buffer := [0], raw_steer_cmd_prev := 0, raw_steer_cmd_pprev := 0,
    lateral_error_prev := 0, yaw_error_prev := 0, lpf_steering_cmd := [1],
    lpf_lateral_error := [], lpf_yaw_error := [], steering_predictor := [],
    reference_trajectory := trajW, traj_raw := trajRawW }

/-- `stW` with a quiescent (zero-state) steering-command filter. -/
def stW2 : MPCState := { stW with lpf_steering_cmd := [0] }

/-- A zero steering report. -/
def steerW : SteeringRep := { steering_tire_angle := 0 }

/-- Ego at the origin moving at 1 m/s. -/
def kinW : Odom := { pose := { x := 0, y := 0, yaw := 0 }, vx := 1 }

/-- The command produced by the successful cycle on `stW2`. -/
def cmdW3 : CtrlCmd := { steering_tire_angle := 1/2, steering_tire_rotation_rate := 1/2 }

/-- An environment whose QP solver capability reports back, as its constant
solution, entry (0,0) of the `H` it was handed — used to observe which `H`
`executeOptimization` passes. -/
def envRec : MPCEnv :=
  { envBase with
    qpsolve := fun qp => some { Uex := fun _ => qp.H 0 0, hasNaN := false } }

/-- The per-step sign applied to curvature, from `m_is_forward_shift`. -/
def signVx (cfg : MPCCfg) : ℚ := if cfg.is_forward_shift then 1 else -1

/-- The discrete state matrix `Ad` the vehicle model produces at horizon
step `i` of `generateMPCMatrix`. -/
def AdAt (env : MPCEnv) (cfg : MPCCfg) (traj : MPCTraj) (DT : ℚ) (i : ℕ) : Mat :=
  (env.discreteMat (traj.vx.getD i 0) (traj.k.getD i 0 * signVx cfg) DT).1

/-- The discrete input matrix `Bd` at horizon step `i`. -/
def BdAt (env : MPCEnv) (cfg : MPCCfg) (traj : MPCTraj) (DT : ℚ) (i : ℕ) : Mat :=
  (env.discreteMat (traj.vx.getD i 0) (traj.k.getD i 0 * signVx cfg) DT).2.1

/-- The discrete offset vector `Wd` at horizon step `i`. -/
def WdAt (env : MPCEnv) (cfg : MPCCfg) (traj : MPCTraj) (DT : ℚ) (i : ℕ) : Mat :=
  (env.discreteMat (traj.vx.getD i 0) (traj.k.getD i 0 * signVx cfg) DT).2.2.2

/-- The model's raw reference steering input at horizon step `i`, computed
from the smoothed curvature, before the dead-band. -/
def urefRawAt (env : MPCEnv) (cfg : MPCCfg) (traj : MPCTraj) (i : ℕ) : ℚ :=
  env.refInput (traj.vx.getD i 0) (traj.smooth_k.getD i 0 * signVx cfg) 0 0

/-- A model environment with constant nonzero 1 × 1 discrete matrices
`Ad = (2)`, `Bd = (3)`, `Cd = (5)`, `Wd = (7)`. -/
def env7 : MPCEnv :=
  { envBase with discreteMat := fun _ _ _ =>
      ((fun _ _ => 2), (fun _ _ => 3), (fun _ _ => 5), (fun _ _ => 7)) }

/-- The witness configuration with a 1-degree feed-forward dead-band. -/
def cfg8 : MPCCfg := { cfgW with zero_ff_steer_deg := 1 }

/-! ## Theorems -/

/-- C9: for every initial state vector and every trajectory, delay
compensation with an empty input history buffer succeeds and returns the
initial state unchanged. -/
theorem delay_compensation_empty_buffer_identity (env : MPCEnv) (cfg : MPCCfg)
    (traj : MPCTraj) (start_time : ℚ) (x0 : Vec) :
    updateStateForDelayCompensation env cfg traj start_time x0 [] = some x0 := rfl

/-- C6: the prediction step size equals the maximum of
`(target_time − start_time)/(N−1)` — where `target_time` comes from walking
the trajectory accumulating segment distances until `min_prediction_length`
is crossed and interpolating the crossing time — and the configured floor
`prediction_dt`; hence it is never below the floor. -/
theorem prediction_delta_time_is_floored_max (env : MPCEnv) (cfg : MPCCfg)
    (start_time : ℚ) (input : MPCTraj) (kin : Odom) :
    getPredictionDeltaTime env cfg start_time input kin =
      max ((targetTimeWalk env cfg input
              (List.range' (env.nearestIdxSoft input kin.pose + 1)
                (input.relative_time.length - (env.nearestIdxSoft input kin.pose + 1))) 0
            - start_time) / ((cfg.prediction_horizon : ℚ) - 1))
          cfg.prediction_dt
    ∧ cfg.prediction_dt ≤ getPredictionDeltaTime env cfg start_time input kin :=
  ⟨rfl, le_max_right _ _⟩

/-- C10: for any two invocations of `executeOptimization` with arbitrary
MPC matrices, initial states, step sizes, trajectories and velocities, the
result is the same — the QP problem `hardQP` handed to the solver is
constant data independent of every argument. -/
theorem executeOptimization_independent_of_arguments (env : MPCEnv)
    (m1 m2 : MPCMatrixT) (x1 x2 : Vec) (dt1 dt2 : ℚ) (t1 t2 : MPCTraj)
    (v1 v2 : ℚ) :
    executeOptimization env m1 x1 dt1 t1 v1 =
      executeOptimization env m2 x2 dt2 t2 v2 := rfl

/-- C5: `getData` fails exactly when the nearest-pose search fails, or the
positional distance exceeds the admissible position error, or the absolute
heading error exceeds the admissible yaw error, or the remaining trajectory
time is shorter than what the prediction needs; and a failing first
`getData` aborts the cycle with no command issued. -/
theorem getData_fails_iff_validation_fails (env : MPCEnv) (cfg : MPCCfg)
    (traj : MPCTraj) (current_steer : SteeringRep) (kin : Odom)
    (pred_state : List ℚ) (st : MPCState) :
    (getData env cfg traj current_steer kin pred_state = none ↔
      (env.nearestPoseInterp traj kin.pose cfg.ego_nearest_dist_threshold
          cfg.ego_nearest_yaw_threshold = none ∨
       ∃ npose nidx ntime,
         env.nearestPoseInterp traj kin.pose cfg.ego_nearest_dist_threshold
           cfg.ego_nearest_yaw_threshold = some (npose, nidx, ntime) ∧
         (cfg.admissible_position_error < env.calcDistance2d kin.pose npose ∨
          cfg.admissible_yaw_error_rad <
            |env.normalizeRadian (kin.pose.yaw - npose.yaw)| ∨
          traj.relative_time.getLast?.getD 0 <
            ntime + cfg.input_delay + cfg.ctrl_period +
              cfg.min_prediction_length / ((cfg.prediction_horizon : ℚ) - 1))))
    ∧ (getData env cfg (applyVelocityDynamicsFilter env cfg st.reference_trajectory kin)
         current_steer kin st.steering_predictor = none →
       (calculateMPC env cfg st current_steer kin).2 = none) := by
  constructor
  · unfold getData
    rcases h : env.nearestPoseInterp traj kin.pose cfg.ego_nearest_dist_threshold
        cfg.ego_nearest_yaw_threshold with _ | ⟨npose, nidx, ntime⟩
    · simp
    · simp only [h, Option.some.injEq, reduceCtorEq, false_or]
      constructor
      · intro hnone
        refine ⟨npose, nidx, ntime, rfl, ?_⟩
        split_ifs at hnone with h1 h2 h3
        · exact Or.inl h1
        · exact Or.inr (Or.inl h2)
        · exact Or.inr (Or.inr h3)
      · rintro ⟨p, i, t, hpt, hcond⟩
        obtain ⟨hp, hi, ht⟩ : npose = p ∧ nidx = i ∧ ntime = t := by
          simpa [Prod.ext_iff] using hpt
        subst hp; subst hi; subst ht
        split_ifs with h1 h2 h3
        · rfl
        · rfl
        · rfl
        · rcases hcond with hc | hc | hc
          · exact absurd hc h1
          · exact absurd hc h2
          · exact absurd hc h3
  · intro hfail
    unfold calculateMPC
    simp only [hfail]

/-- `getInitialState` never touches the delay buffer, the raw-command pair,
the raw trajectory, the predictor or the steering-command filter: only the
dynamics variant mutates state, and it mutates only the previous-error
memory and the error filters. -/
theorem getInitialState_preserves (env : MPCEnv) (cfg : MPCCfg) (st : MPCState)
    (data : MPCData) :
    (getInitialState env cfg st data).2.input_buffer = st.input_buffer ∧
    (getInitialState env cfg st data).2.raw_steer_cmd_prev = st.raw_steer_cmd_prev ∧
    (getInitialState env cfg st data).2.raw_steer_cmd_pprev = st.raw_steer_cmd_pprev ∧
    (getInitialState env cfg st data).2.traj_raw = st.traj_raw ∧
    (getInitialState env cfg st data).2.steering_predictor = st.steering_predictor := by
  unfold getInitialState
  rcases hmk : cfg.model_kind <;> simp [hmk]

/-- Case analysis on one cycle: either it fails and the delay buffer and
raw-command pair are untouched, or it fully succeeds and the command is the
low-pass filter of the saturated first solver output, the buffer does one
push-then-pop, and the raw-command pair shifts. -/
theorem calculateMPC_shape (env : MPCEnv) (cfg : MPCCfg) (st : MPCState)
    (steer : SteeringRep) (kin : Odom) :
    ((calculateMPC env cfg st steer kin).2 = none ∧
     (calculateMPC env cfg st steer kin).1.input_buffer = st.input_buffer ∧
     (calculateMPC env cfg st steer kin).1.raw_steer_cmd_prev = st.raw_steer_cmd_prev ∧
     (calculateMPC env cfg st steer kin).1.raw_steer_cmd_pprev = st.raw_steer_cmd_pprev) ∨
    (∃ s u rate,
      (calculateMPC env cfg st steer kin).2 =
        some { steering_tire_angle :=
                 (env.lpfFilter s (clampD u (-cfg.steer_lim) cfg.steer_lim)).1,
               steering_tire_rotation_rate := rate } ∧
      (calculateMPC env cfg st steer kin).1.input_buffer =
        (st.input_buffer ++
          [(env.lpfFilter s (clampD u (-cfg.steer_lim) cfg.steer_lim)).1]).drop 1 ∧
      (calculateMPC env cfg st steer kin).1.raw_steer_cmd_prev = u ∧
      (calculateMPC env cfg st steer kin).1.raw_steer_cmd_pprev = st.raw_steer_cmd_prev) := by
  unfold calculateMPC
  rcases h1 : getData env cfg
      (applyVelocityDynamicsFilter env cfg st.reference_trajectory kin) steer kin
      st.steering_predictor with _ | data
  · exact Or.inl (by simp [h1])
  · simp only [h1]
    obtain ⟨hb, hp, hpp, htr, hsp⟩ := getInitialState_preserves env cfg st data
    rcases h2 : updateStateForDelayCompensation env cfg
        (applyVelocityDynamicsFilter env cfg st.reference_trajectory kin)
        data.nearest_time (getInitialState env cfg st data).1
        (getInitialState env cfg st data).2.input_buffer with _ | x0d
    · exact Or.inl (by simp [h2, hb, hp, hpp])
    · simp only [h2]
      rcases h3 : resampleMPCTrajectoryByTime env cfg
          (data.nearest_time + cfg.input_delay)
          (getPredictionDeltaTime env cfg (data.nearest_time + cfg.input_delay)
            (applyVelocityDynamicsFilter env cfg st.reference_trajectory kin) kin)
          (applyVelocityDynamicsFilter env cfg st.reference_trajectory kin)
          with _ | resampled
      · exact Or.inl (by simp [h3, hb, hp, hpp])
      · simp only [h3]
        rcases h4 : getData env cfg resampled steer kin
            (getInitialState env cfg st data).2.steering_predictor with _ | diag
        · exact Or.inl (by simp [h4, hb, hp, hpp])
        · simp only [h4]
          rcases h5 : getData env cfg (getInitialState env cfg st data).2.traj_raw
              steer kin (getInitialState env cfg st data).2.steering_predictor
              with _ | raw
          · exact Or.inl (by simp [h5, hb, hp, hpp])
          · simp only [h5]
            rcases h6 : executeOptimization env
                (generateMPCMatrix env cfg resampled
                  (getPredictionDeltaTime env cfg (data.nearest_time + cfg.input_delay)
                    (applyVelocityDynamicsFilter env cfg st.reference_trajectory kin) kin))
                x0d
                (getPredictionDeltaTime env cfg (data.nearest_time + cfg.input_delay)
                  (applyVelocityDynamicsFilter env cfg st.reference_trajectory kin) kin)
                resampled kin.vx with _ | Uex
            · exact Or.inl (by simp [h6, hb, hp, hpp])
            · refine Or.inr ⟨(getInitialState env cfg st data).2.lpf_steering_cmd,
                Uex 0,
                calcDesiredSteeringRate env cfg
                  (generateMPCMatrix env cfg resampled
                    (getPredictionDeltaTime env cfg (data.nearest_time + cfg.input_delay)
                      (applyVelocityDynamicsFilter env cfg st.reference_trajectory kin) kin))
                  x0d Uex
                  (env.lpfFilter (getInitialState env cfg st data).2.lpf_steering_cmd
                    (clampD (Uex 0) (-cfg.steer_lim) cfg.steer_lim)).1
                  steer.steering_tire_angle
                  (getPredictionDeltaTime env cfg (data.nearest_time + cfg.input_delay)
                    (applyVelocityDynamicsFilter env cfg st.reference_trajectory kin) kin),
                ?_, ?_, ?_, ?_⟩ <;> simp [h6, hb, hp, hpp]

/-- `std::clamp` keeps its value inside `[lo, hi]` whenever `lo ≤ hi`. -/
theorem clampD_bounds (v lo hi : ℚ) (h : lo ≤ hi) :
    lo ≤ clampD v lo hi ∧ clampD v lo hi ≤ hi := by
  unfold clampD
  split_ifs with h1 h2 <;> constructor <;> linarith

/-- C2: a cycle that fails at any stage (data/validation, delay
compensation, resampling, diagnostics data, optimization) leaves the delay
input buffer and the previous raw-command pair exactly as they were before
the cycle. -/
theorem failed_cycle_preserves_history (env : MPCEnv) (cfg : MPCCfg)
    (st : MPCState) (steer : SteeringRep) (kin : Odom)
    (h : (calculateMPC env cfg st steer kin).2 = none) :
    (calculateMPC env cfg st steer kin).1.input_buffer = st.input_buffer ∧
    (calculateMPC env cfg st steer kin).1.raw_steer_cmd_prev = st.raw_steer_cmd_prev ∧
    (calculateMPC env cfg st steer kin).1.raw_steer_cmd_pprev = st.raw_steer_cmd_pprev := by
  rcases calculateMPC_shape env cfg st steer kin with ⟨_, hb, hp, hpp⟩ | ⟨s, u, r, hsome, _⟩
  · exact ⟨hb, hp, hpp⟩
  · rw [hsome] at h
    cases h

/-- C4: across any number of successful cycles the delay input buffer keeps
its length — each successful cycle pushes exactly one command and pops
exactly one. -/
theorem buffer_length_invariant_over_successful_cycles (env : MPCEnv)
    (cfg : MPCCfg) (inputs : List (SteeringRep × Odom)) (st : MPCState)
    (hs : allCyclesSucceed env cfg st inputs) :
    (runCycles env cfg st inputs).input_buffer.length = st.input_buffer.length := by
  induction inputs generalizing st with
  | nil => rfl
  | cons p rest ih =>
    obtain ⟨_, h2⟩ := hs
    have hlen : (calculateMPC env cfg st p.1 p.2).1.input_buffer.length =
        st.input_buffer.length := by
      rcases calculateMPC_shape env cfg st p.1 p.2 with ⟨_, hb, _, _⟩ | ⟨s, u, r, _, hb, _, _⟩
      · rw [hb]
      · rw [hb]
        simp
    rw [runCycles, ih _ h2, hlen]

/-- C3 (amended): on every successful cycle the steering angle written to
the command is the low-pass filter applied to the saturated solver output,
and that saturated value lies within `[-steer_lim, steer_lim]`; the filter
runs after the clamp, so its own output is not re-clamped. -/
theorem success_cmd_is_lpf_of_saturated_input (env : MPCEnv) (cfg : MPCCfg)
    (st : MPCState) (steer : SteeringRep) (kin : Odom) (st2 : MPCState)
    (cmd : CtrlCmd) (hlim : 0 ≤ cfg.steer_lim)
    (h : calculateMPC env cfg st steer kin = (st2, some cmd)) :
    ∃ s u, cmd.steering_tire_angle =
        (env.lpfFilter s (clampD u (-cfg.steer_lim) cfg.steer_lim)).1 ∧
      -cfg.steer_lim ≤ clampD u (-cfg.steer_lim) cfg.steer_lim ∧
      clampD u (-cfg.steer_lim) cfg.steer_lim ≤ cfg.steer_lim := by
  have hlim2 : -cfg.steer_lim ≤ cfg.steer_lim := by linarith
  rcases calculateMPC_shape env cfg st steer kin with ⟨hn, _, _, _⟩ | ⟨s, u, r, hsome, _⟩
  · rw [h] at hn
    cases hn
  · rw [h] at hsome
    simp only [Option.some.injEq] at hsome
    refine ⟨s, u, ?_, (clampD_bounds u _ _ hlim2).1, (clampD_bounds u _ _ hlim2).2⟩
    rw [hsome]

/-- C3 counterexample: a fully successful cycle whose written steering
angle is 3/2, strictly outside `[-steer_lim, steer_lim] = [-1/2, 1/2]` —
the clamp is applied before the stateful low-pass filter, whose output is
what gets written, so the claim as stated fails. -/
theorem cmd_exceeds_limit_counterexample :
    (calculateMPC envBase cfgW stW steerW kinW).2.map
        (fun c => c.steering_tire_angle) = some (3/2) ∧
    cfgW.steer_lim < 3/2 := by
  constructor
  · norm_num +decide [calculateMPC, getData, applyVelocityDynamicsFilter, getInitialState,
    updateStateForDelayCompensation, delayCompLoop, getPredictionDeltaTime,
    targetTimeWalk, resampleMPCTrajectoryByTime, executeOptimization,
    calcDesiredSteeringRate, clampD, envBase, envFailW, cfgW, stW, stW2, cmdW3,
    steerW, kinW, trajW, trajRawW, zeroMat, zeroVec, Finset.sum_range_one,
    List.range, runCycles, allCyclesSucceed]
  · norm_num [cfgW]

/-- Witness for C3 (amended) at a concrete successful cycle. -/
theorem success_cmd_is_lpf_witness :
    (0 : ℚ) ≤ cfgW.steer_lim ∧
    (∃ s u, cmdW3.steering_tire_angle =
        (envBase.lpfFilter s (clampD u (-cfgW.steer_lim) cfgW.steer_lim)).1 ∧
      -cfgW.steer_lim ≤ clampD u (-cfgW.steer_lim) cfgW.steer_lim ∧
      clampD u (-cfgW.steer_lim) cfgW.steer_lim ≤ cfgW.steer_lim) :=
  ⟨by norm_num [cfgW],
   success_cmd_is_lpf_of_saturated_input envBase cfgW stW2 steerW kinW
     (calculateMPC envBase cfgW stW2 steerW kinW).1 cmdW3
     (by norm_num [cfgW]) (by norm_num +decide [calculateMPC, getData, applyVelocityDynamicsFilter, getInitialState,
    updateStateForDelayCompensation, delayCompLoop, getPredictionDeltaTime,
    targetTimeWalk, resampleMPCTrajectoryByTime, executeOptimization,
    calcDesiredSteeringRate, clampD, envBase, envFailW, cfgW, stW, stW2, cmdW3,
    steerW, kinW, trajW, trajRawW, zeroMat, zeroVec, Finset.sum_range_one,
    List.range, runCycles, allCyclesSucceed])⟩

/-- Witness for C2 at a concrete cycle failing the nearest-pose search. -/
theorem failed_cycle_preserves_history_witness :
    (calculateMPC envFailW cfgW stW steerW kinW).2 = none ∧
    ((calculateMPC envFailW cfgW stW steerW kinW).1.input_buffer = stW.input_buffer ∧
     (calculateMPC envFailW cfgW stW steerW kinW).1.raw_steer_cmd_prev =
       stW.raw_steer_cmd_prev ∧
     (calculateMPC envFailW cfgW stW steerW kinW).1.raw_steer_cmd_pprev =
       stW.raw_steer_cmd_pprev) :=
  ⟨by norm_num +decide [calculateMPC, getData, applyVelocityDynamicsFilter, getInitialState,
    updateStateForDelayCompensation, delayCompLoop, getPredictionDeltaTime,
    targetTimeWalk, resampleMPCTrajectoryByTime, executeOptimization,
    calcDesiredSteeringRate, clampD, envBase, envFailW, cfgW, stW, stW2, cmdW3,
    steerW, kinW, trajW, trajRawW, zeroMat, zeroVec, Finset.sum_range_one,
    List.range, runCycles, allCyclesSucceed], failed_cycle_preserves_history envFailW cfgW stW steerW kinW (by norm_num +decide [calculateMPC, getData, applyVelocityDynamicsFilter, getInitialState,
    updateStateForDelayCompensation, delayCompLoop, getPredictionDeltaTime,
    targetTimeWalk, resampleMPCTrajectoryByTime, executeOptimization,
    calcDesiredSteeringRate, clampD, envBase, envFailW, cfgW, stW, stW2, cmdW3,
    steerW, kinW, trajW, trajRawW, zeroMat, zeroVec, Finset.sum_range_one,
    List.range, runCycles, allCyclesSucceed])⟩

/-- Witness for C4 over two concrete successful cycles. -/
theorem buffer_length_invariant_witness :
    allCyclesSucceed envBase cfgW stW [(steerW, kinW), (steerW, kinW)] ∧
    (runCycles envBase cfgW stW [(steerW, kinW), (steerW, kinW)]).input_buffer.length
      = stW.input_buffer.length :=
  ⟨⟨by norm_num +decide [calculateMPC, getData, applyVelocityDynamicsFilter, getInitialState,
    updateStateForDelayCompensation, delayCompLoop, getPredictionDeltaTime,
    targetTimeWalk, resampleMPCTrajectoryByTime, executeOptimization,
    calcDesiredSteeringRate, clampD, envBase, envFailW, cfgW, stW, stW2, cmdW3,
    steerW, kinW, trajW, trajRawW, zeroMat, zeroVec, Finset.sum_range_one,
    List.range, runCycles, allCyclesSucceed], by norm_num +decide [calculateMPC, getData, applyVelocityDynamicsFilter, getInitialState,
    updateStateForDelayCompensation, delayCompLoop, getPredictionDeltaTime,
    targetTimeWalk, resampleMPCTrajectoryByTime, executeOptimization,
    calcDesiredSteeringRate, clampD, envBase, envFailW, cfgW, stW, stW2, cmdW3,
    steerW, kinW, trajW, trajRawW, zeroMat, zeroVec, Finset.sum_range_one,
    List.range, runCycles, allCyclesSucceed], trivial⟩,
   buffer_length_invariant_over_successful_cycles envBase cfgW
     [(steerW, kinW), (steerW, kinW)] stW ⟨by norm_num +decide [calculateMPC, getData, applyVelocityDynamicsFilter, getInitialState,
    updateStateForDelayCompensation, delayCompLoop, getPredictionDeltaTime,
    targetTimeWalk, resampleMPCTrajectoryByTime, executeOptimization,
    calcDesiredSteeringRate, clampD, envBase, envFailW, cfgW, stW, stW2, cmdW3,
    steerW, kinW, trajW, trajRawW, zeroMat, zeroVec, Finset.sum_range_one,
    List.range, runCycles, allCyclesSucceed], by norm_num +decide [calculateMPC, getData, applyVelocityDynamicsFilter, getInitialState,
    updateStateForDelayCompensation, delayCompLoop, getPredictionDeltaTime,
    targetTimeWalk, resampleMPCTrajectoryByTime, executeOptimization,
    calcDesiredSteeringRate, clampD, envBase, envFailW, cfgW, stW, stW2, cmdW3,
    steerW, kinW, trajW, trajRawW, zeroMat, zeroVec, Finset.sum_range_one,
    List.range, runCycles, allCyclesSucceed], trivial⟩⟩

/-- Witness for C5: a failing nearest-pose search makes `getData` fail and
the cycle abort with no command. -/
theorem getData_fails_iff_witness :
    getData envFailW cfgW trajW steerW kinW [] = none ∧
    (calculateMPC envFailW cfgW stW steerW kinW).2 = none :=
  ⟨(getData_fails_iff_validation_fails envFailW cfgW trajW steerW kinW [] stW).1.mpr
      (Or.inl (by norm_num [envFailW, envBase])),
   (getData_fails_iff_validation_fails envFailW cfgW trajW steerW kinW [] stW).2
     (by norm_num +decide [calculateMPC, getData, applyVelocityDynamicsFilter, getInitialState,
    updateStateForDelayCompensation, delayCompLoop, getPredictionDeltaTime,
    targetTimeWalk, resampleMPCTrajectoryByTime, executeOptimization,
    calcDesiredSteeringRate, clampD, envBase, envFailW, cfgW, stW, stW2, cmdW3,
    steerW, kinW, trajW, trajRawW, zeroMat, zeroVec, Finset.sum_range_one,
    List.range, runCycles, allCyclesSucceed])⟩

/-- C1: the quadratic cost handed to the solver is the baked-in literal
`hardH` — entry (0,0) observed through the solver is 2.40456 — while the
cost `Bexᵀ·Cexᵀ·Qex·Cex·Bex + R1ex + R2ex` built from the cycle's actual
MPC matrices (here all zero: zero model matrices and zero weights) is 0 at
that entry, so the cost is not derived from the cycle's configuration and
live data as the claim requires. -/
theorem qp_cost_is_literal_not_derived :
    (executeOptimization envRec (generateMPCMatrix envRec cfgW trajW 1)
        zeroVec 1 trajW 1).map (fun u => u 0) = some (2.40456 : ℚ) ∧
    specCostH cfgW (generateMPCMatrix envRec cfgW trajW 1) 0 0 = 0 ∧
    (2.40456 : ℚ) ≠ 0 := by
  refine ⟨?_, ?_, by norm_num⟩
  · norm_num [executeOptimization, envRec, envBase, hardQP, hardH, hardHrows,
      hardHrow0, List.getD]
  · norm_num +decide [specCostH, generateMPCMatrix, genLoop, genStep,
      addLateralJerk, addSteerWeightR, addEntry, addBlock, setBlock, blockAt,
      matMul, matAdd, matTrans, mpcMatInit, zeroMat, envRec, envBase, cfgW,
      trajW, List.range_succ, List.range_zero, List.foldl_cons, List.foldl_nil,
      List.foldl_append, Finset.sum_range_succ, Finset.sum_range_zero]

/-- Reading a row above a written block sees the old matrix. -/
theorem setBlock_above (M : Mat) (r c h w : ℕ) (B : Mat) (i j : ℕ)
    (hi : i < r) : setBlock M r c h w B i j = M i j := by
  unfold setBlock
  rw [if_neg]
  rintro ⟨h1, -, -, -⟩
  omega

/-- Reading a column outside a written block sees the old matrix. -/
theorem setBlock_col_out (M : Mat) (r c h w : ℕ) (B : Mat) (i j : ℕ)
    (hj : j < c ∨ c + w ≤ j) : setBlock M r c h w B i j = M i j := by
  unfold setBlock
  rw [if_neg]
  rintro ⟨-, -, h3, h4⟩
  omega

/-- Reading inside a written block sees the written block. -/
theorem setBlock_get (M : Mat) (r c h w : ℕ) (B : Mat) (i j : ℕ)
    (h1 : r ≤ i) (h2 : i < r + h) (h3 : c ≤ j) (h4 : j < c + w) :
    setBlock M r c h w B i j = B (i - r) (j - c) := by
  unfold setBlock
  rw [if_pos ⟨h1, h2, h3, h4⟩]

/-- A left fold of matrix operations that each leave an entry unchanged
leaves that entry unchanged. -/
theorem foldl_mat_stable {α : Type} (L : List α) (F : Mat → α → Mat) (M : Mat)
    (i j : ℕ) (h : ∀ B a, a ∈ L → F B a i j = B i j) :
    (L.foldl F M) i j = M i j := by
  induction L generalizing M with
  | nil => rfl
  | cons x xs ih =>
    rw [List.foldl_cons, ih _ (fun B a ha => h B a (List.mem_cons_of_mem _ ha))]
    exact h M x (List.mem_cons_self x xs)

/-- `addLateralJerk` rewrites only `R2ex`. -/
theorem addLateralJerk_fields (env : MPCEnv) (cfg : MPCCfg) (traj : MPCTraj)
    (DT : ℚ) (m : MPCMatrixT) :
    (addLateralJerk env cfg traj DT m).Aex = m.Aex ∧
    (addLateralJerk env cfg traj DT m).Bex = m.Bex ∧
    (addLateralJerk env cfg traj DT m).Wex = m.Wex ∧
    (addLateralJerk env cfg traj DT m).Uref_ex = m.Uref_ex := by
  simp only [addLateralJerk]
  generalize List.range (cfg.prediction_horizon - 1) = L
  induction L generalizing m with
  | nil => exact ⟨rfl, rfl, rfl, rfl⟩
  | cons x xs ih =>
    rw [List.foldl_cons]
    exact ih _

/-- `generateMPCMatrix` returns the loop's `Aex`, `Bex`, `Wex` and
`Uref_ex` unchanged (the post-processing touches only `R1ex`/`R2ex`). -/
theorem generateMPCMatrix_core_fields (env : MPCEnv) (cfg : MPCCfg)
    (traj : MPCTraj) (DT : ℚ) :
    (generateMPCMatrix env cfg traj DT).Aex =
      (genLoop env cfg traj DT cfg.prediction_horizon).Aex ∧
    (generateMPCMatrix env cfg traj DT).Bex =
      (genLoop env cfg traj DT cfg.prediction_horizon).Bex ∧
    (generateMPCMatrix env cfg traj DT).Wex =
      (genLoop env cfg traj DT cfg.prediction_horizon).Wex ∧
    (generateMPCMatrix env cfg traj DT).Uref_ex =
      (genLoop env cfg traj DT cfg.prediction_horizon).Uref_ex := by
  obtain ⟨h1, h2, h3, h4⟩ := addLateralJerk_fields env cfg traj DT
    (genLoop env cfg traj DT cfg.prediction_horizon)
  exact ⟨h1, h2, h3, h4⟩

/-- Iteration `s` of the prediction loop does not modify rows of `Aex`,
`Bex`, `Wex` strictly above its own row block. -/
theorem genStep_rows_stable (env : MPCEnv) (cfg : MPCCfg) (traj : MPCTraj)
    (DT : ℚ) (s : ℕ) (m : MPCMatrixT) (i j : ℕ) (hx : i < s * cfg.dimX) :
    (genStep env cfg traj DT s m).Aex i j = m.Aex i j ∧
    (genStep env cfg traj DT s m).Bex i j = m.Bex i j ∧
    (genStep env cfg traj DT s m).Wex i j = m.Wex i j := by
  have h0 : s ≠ 0 := by
    rintro rfl
    simp at hx
  simp only [genStep, if_neg h0]
  refine ⟨?_, ?_, ?_⟩
  · exact setBlock_above _ _ _ _ _ _ _ _ hx
  · rw [setBlock_above _ _ _ _ _ _ _ _ hx]
    exact foldl_mat_stable _ _ _ _ _
      (fun B a _ => setBlock_above _ _ _ _ _ _ _ _ hx)
  · exact setBlock_above _ _ _ _ _ _ _ _ hx

/-- Iteration `s` of the prediction loop does not modify rows of `Uref_ex`
strictly above its own row block. -/
theorem genStep_uref_stable (env : MPCEnv) (cfg : MPCCfg) (traj : MPCTraj)
    (DT : ℚ) (s : ℕ) (m : MPCMatrixT) (i j : ℕ) (hu : i < s * cfg.dimU) :
    (genStep env cfg traj DT s m).Uref_ex i j = m.Uref_ex i j := by
  have h0 : s ≠ 0 := by
    rintro rfl
    simp at hu
  simp only [genStep, if_neg h0]
  exact setBlock_above _ _ _ _ _ _ _ _ hu

/-- Rows written by iteration `t - 1` or earlier of the prediction loop are
stable under all later iterations, for `Aex`, `Bex` and `Wex`. -/
theorem genLoop_rows_stable (env : MPCEnv) (cfg : MPCCfg) (traj : MPCTraj)
    (DT : ℚ) (t : ℕ) :
    ∀ s, t ≤ s → ∀ i j, i < t * cfg.dimX →
      (genLoop env cfg traj DT s).Aex i j = (genLoop env cfg traj DT t).Aex i j ∧
      (genLoop env cfg traj DT s).Bex i j = (genLoop env cfg traj DT t).Bex i j ∧
      (genLoop env cfg traj DT s).Wex i j = (genLoop env cfg traj DT t).Wex i j := by
  intro s
  induction s with
  | zero =>
    intro hts i j hx
    obtain rfl : t = 0 := Nat.le_zero.mp hts
    exact ⟨rfl, rfl, rfl⟩
  | succ n ih =>
    intro hts i j hx
    by_cases he : t = n + 1
    · subst he
      exact ⟨rfl, rfl, rfl⟩
    · have htn : t ≤ n := by omega
      have hxn : i < n * cfg.dimX :=
        lt_of_lt_of_le hx (Nat.mul_le_mul_right _ htn)
      obtain ⟨ha, hb, hw⟩ := genStep_rows_stable env cfg traj DT n
        (genLoop env cfg traj DT n) i j hxn
      obtain ⟨ha2, hb2, hw2⟩ := ih htn i j hx
      exact ⟨ha.trans ha2, hb.trans hb2, hw.trans hw2⟩

/-- Rows written by iteration `t - 1` or earlier of the prediction loop are
stable under all later iterations, for `Uref_ex`. -/
theorem genLoop_uref_stable (env : MPCEnv) (cfg : MPCCfg) (traj : MPCTraj)
    (DT : ℚ) (t : ℕ) :
    ∀ s, t ≤ s → ∀ i j, i < t * cfg.dimU →
      (genLoop env cfg traj DT s).Uref_ex i j =
        (genLoop env cfg traj DT t).Uref_ex i j := by
  intro s
  induction s with
  | zero =>
    intro hts i j hu
    obtain rfl : t = 0 := Nat.le_zero.mp hts
    rfl
  | succ n ih =>
    intro hts i j hu
    by_cases he : t = n + 1
    · subst he
      rfl
    · have htn : t ≤ n := by omega
      have hun : i < n * cfg.dimU :=
        lt_of_lt_of_le hu (Nat.mul_le_mul_right _ htn)
      exact (genStep_uref_stable env cfg traj DT n (genLoop env cfg traj DT n)
        i j hun).trans (ih htn i j hu)

/-- Iteration 0 writes `Ad_0` and `Wd_0` into the first row block
(mpc.cpp:497-500). -/
theorem genStep_zero_AW (env : MPCEnv) (cfg : MPCCfg) (traj : MPCTraj)
    (DT : ℚ) (m : MPCMatrixT) (a b : ℕ) (ha : a < cfg.dimX) :
    (b < cfg.dimX →
      (genStep env cfg traj DT 0 m).Aex a b = AdAt env cfg traj DT 0 a b) ∧
    (genStep env cfg traj DT 0 m).Wex a 0 = WdAt env cfg traj DT 0 a 0 := by
  simp only [genStep, eq_self_iff_true, if_true]
  constructor
  · intro hb
    rw [setBlock_get _ _ _ _ _ _ _ _ (Nat.zero_le _) (by omega) (Nat.zero_le _) (by omega)]
    simp [AdAt, signVx]
  · rw [setBlock_get _ _ _ _ _ _ _ _ (Nat.zero_le _) (by omega) (Nat.zero_le _) (by omega)]
    simp [WdAt, signVx]

/-- Every iteration `i` ends by writing `Bd_i` into the diagonal input
block `(i, i)` of `Bex` (mpc.cpp:510). -/
theorem genStep_Bex_own_block (env : MPCEnv) (cfg : MPCCfg) (traj : MPCTraj)
    (DT : ℚ) (i : ℕ) (m : MPCMatrixT) (a b : ℕ) (ha : a < cfg.dimX)
    (hb : b < cfg.dimU) :
    (genStep env cfg traj DT i m).Bex (i * cfg.dimX + a) (i * cfg.dimU + b) =
      BdAt env cfg traj DT i a b := by
  simp only [genStep]
  rw [setBlock_get _ _ _ _ _ _ _ _ (Nat.le_add_right _ _) (by omega)
    (Nat.le_add_right _ _) (by omega)]
  simp [BdAt, signVx]

/-- For `i ≥ 1`, iteration `i` writes `Ad_i` times the previous row block
into the `Aex` row block `i` (mpc.cpp:502). -/
theorem genStep_Aex_block (env : MPCEnv) (cfg : MPCCfg) (traj : MPCTraj)
    (DT : ℚ) (i : ℕ) (h0 : i ≠ 0) (m : MPCMatrixT) (a b : ℕ)
    (ha : a < cfg.dimX) (hb : b < cfg.dimX) :
    (genStep env cfg traj DT i m).Aex (i * cfg.dimX + a) b =
      ∑ k ∈ Finset.range cfg.dimX, AdAt env cfg traj DT i a k *
        m.Aex ((i - 1) * cfg.dimX + k) b := by
  simp only [genStep, if_neg h0]
  rw [setBlock_get _ _ _ _ _ _ _ _ (Nat.le_add_right _ _) (by omega)
    (Nat.zero_le _) (by omega)]
  simp [matMul, blockAt, AdAt, signVx]

/-- For `i ≥ 1`, iteration `i` writes `Ad_i` times the previous `Wex` block
plus `Wd_i` into the `Wex` row block `i` (mpc.cpp:508). -/
theorem genStep_Wex_block (env : MPCEnv) (cfg : MPCCfg) (traj : MPCTraj)
    (DT : ℚ) (i : ℕ) (h0 : i ≠ 0) (m : MPCMatrixT) (a : ℕ)
    (ha : a < cfg.dimX) :
    (genStep env cfg traj DT i m).Wex (i * cfg.dimX + a) 0 =
      (∑ k ∈ Finset.range cfg.dimX, AdAt env cfg traj DT i a k *
        m.Wex ((i - 1) * cfg.dimX + k) 0) + WdAt env cfg traj DT i a 0 := by
  simp only [genStep, if_neg h0]
  rw [setBlock_get _ _ _ _ _ _ _ _ (Nat.le_add_right _ _) (by omega)
    (Nat.zero_le _) (by omega)]
  simp [matAdd, matMul, blockAt, AdAt, WdAt, signVx]

/-- Evaluating the inner `j`-fold of iteration `i` (mpc.cpp:503-507) at a
previously written input block `j < t`: each processed block becomes
`Ad_i` times the corresponding block of the incoming matrix's previous row
block, and later writes of the fold do not disturb it. -/
theorem genStep_fold_eval (cfg : MPCCfg) (i : ℕ) (B0 Ad : Mat) (a b : ℕ)
    (ha : a < cfg.dimX) (hb : b < cfg.dimU) :
    ∀ t, t ≤ i → ∀ j, j < t →
      ((List.range t).foldl (fun B j2 =>
          setBlock B (i * cfg.dimX) (j2 * cfg.dimU) cfg.dimX cfg.dimU
            (matMul Ad (blockAt B ((i - 1) * cfg.dimX) (j2 * cfg.dimU)) cfg.dimX)) B0)
        (i * cfg.dimX + a) (j * cfg.dimU + b) =
      ∑ k ∈ Finset.range cfg.dimX, Ad a k *
        B0 ((i - 1) * cfg.dimX + k) (j * cfg.dimU + b) := by
  intro t
  induction t with
  | zero =>
    intro _ j hj
    exact absurd hj (Nat.not_lt_zero j)
  | succ n ih =>
    intro hti hj1 hj2
    have hi1 : 1 ≤ i := le_trans (by omega) hti
    rw [List.range_succ, List.foldl_append, List.foldl_cons, List.foldl_nil]
    by_cases hjn : hj1 = n
    · subst hjn
      rw [setBlock_get _ _ _ _ _ _ _ _ (Nat.le_add_right _ _) (by omega)
        (Nat.le_add_right _ _) (by omega)]
      rw [Nat.add_sub_cancel_left, Nat.add_sub_cancel_left]
      unfold matMul blockAt
      refine Finset.sum_congr rfl (fun k hk => ?_)
      have hkx : k < cfg.dimX := Finset.mem_range.mp hk
      have hrow : (i - 1) * cfg.dimX + k < i * cfg.dimX := by
        have e1 : (i - 1) * cfg.dimX + cfg.dimX = i * cfg.dimX := by
          have e2 : i - 1 + 1 = i := by omega
          calc (i - 1) * cfg.dimX + cfg.dimX = (i - 1 + 1) * cfg.dimX := by
                rw [Nat.succ_mul]
            _ = i * cfg.dimX := by rw [e2]
        omega
      congr 1
      exact foldl_mat_stable _ _ _ _ _
        (fun B x _ => setBlock_above _ _ _ _ _ _ _ _ hrow)
    · have hjn2 : hj1 < n := by omega
      have hcol : hj1 * cfg.dimU + b < n * cfg.dimU := by
        have h1 : hj1 * cfg.dimU + b < (hj1 + 1) * cfg.dimU := by
          rw [Nat.succ_mul]
          omega
        exact lt_of_lt_of_le h1 (Nat.mul_le_mul_right _ hjn2)
      rw [setBlock_col_out _ _ _ _ _ _ _ _ (Or.inl hcol)]
      exact ih (by omega) hj1 hjn2

/-- For `i ≥ 1` and `j < i`, iteration `i` writes `Ad_i` times the
previous row's block `(i-1, j)` into block `(i, j)` of `Bex`
(mpc.cpp:503-507). -/
theorem genStep_Bex_prev_block (env : MPCEnv) (cfg : MPCCfg) (traj : MPCTraj)
    (DT : ℚ) (i : ℕ) (h0 : i ≠ 0) (m : MPCMatrixT) (j a b : ℕ) (hj : j < i)
    (ha : a < cfg.dimX) (hb : b < cfg.dimU) :
    (genStep env cfg traj DT i m).Bex (i * cfg.dimX + a) (j * cfg.dimU + b) =
      ∑ k ∈ Finset.range cfg.dimX, AdAt env cfg traj DT i a k *
        m.Bex ((i - 1) * cfg.dimX + k) (j * cfg.dimU + b) := by
  simp only [genStep, if_neg h0]
  have hcol : j * cfg.dimU + b < i * cfg.dimU := by
    have h1 : j * cfg.dimU + b < (j + 1) * cfg.dimU := by
      rw [Nat.succ_mul]
      omega
    exact lt_of_lt_of_le h1 (Nat.mul_le_mul_right _ hj)
  rw [setBlock_col_out _ _ _ _ _ _ _ _ (Or.inl hcol)]
  rw [genStep_fold_eval cfg i m.Bex _ a b ha hb i le_rfl j hj]
  simp [AdAt, signVx]

/-- Iteration `i` stores a zero reference steering input whenever the raw
model reference input is inside the dead-band (mpc.cpp:515-521). -/
theorem genStep_uref_own (env : MPCEnv) (cfg : MPCCfg) (traj : MPCTraj)
    (DT : ℚ) (i : ℕ) (m : MPCMatrixT) (hnu : 1 ≤ cfg.dimU)
    (hdb : |urefRawAt env cfg traj i| < env.deg2rad cfg.zero_ff_steer_deg) :
    (genStep env cfg traj DT i m).Uref_ex (i * cfg.dimU) 0 = 0 := by
  simp only [urefRawAt, signVx] at hdb
  simp only [genStep]
  rw [setBlock_get _ _ _ _ _ _ _ _ le_rfl (by omega) le_rfl (by omega)]
  rw [if_pos hdb]
  simp

/-- C7: in the matrices built by `generateMPCMatrix`, row block 0 of
`Aex`/`Bex`/`Wex` is `Ad_0`/`Bd_0`/`Wd_0`, and for every `1 ≤ i < N`:
`Aex` block `i` is `Ad_i` times block `i−1`; `Bex` block `(i,j)` for
`j < i` is `Ad_i` times block `(i−1,j)` while block `(i,i)` is `Bd_i`; and
`Wex` block `i` is `Ad_i` times block `i−1` plus `Wd_i`. -/
theorem generateMPCMatrix_stacked_recursion (env : MPCEnv) (cfg : MPCCfg)
    (traj : MPCTraj) (DT : ℚ) :
    (0 < cfg.prediction_horizon →
      (∀ a b, a < cfg.dimX → b < cfg.dimX →
        (generateMPCMatrix env cfg traj DT).Aex a b = AdAt env cfg traj DT 0 a b) ∧
      (∀ a b, a < cfg.dimX → b < cfg.dimU →
        (generateMPCMatrix env cfg traj DT).Bex a b = BdAt env cfg traj DT 0 a b) ∧
      (∀ a, a < cfg.dimX →
        (generateMPCMatrix env cfg traj DT).Wex a 0 = WdAt env cfg traj DT 0 a 0)) ∧
    (∀ i, 1 ≤ i → i < cfg.prediction_horizon →
      (∀ a b, a < cfg.dimX → b < cfg.dimX →
        (generateMPCMatrix env cfg traj DT).Aex (i * cfg.dimX + a) b =
          ∑ k ∈ Finset.range cfg.dimX, AdAt env cfg traj DT i a k *
            (generateMPCMatrix env cfg traj DT).Aex ((i - 1) * cfg.dimX + k) b) ∧
      (∀ j a b, j < i → a < cfg.dimX → b < cfg.dimU →
        (generateMPCMatrix env cfg traj DT).Bex (i * cfg.dimX + a) (j * cfg.dimU + b) =
          ∑ k ∈ Finset.range cfg.dimX, AdAt env cfg traj DT i a k *
            (generateMPCMatrix env cfg traj DT).Bex ((i - 1) * cfg.dimX + k) (j * cfg.dimU + b)) ∧
      (∀ a b, a < cfg.dimX → b < cfg.dimU →
        (generateMPCMatrix env cfg traj DT).Bex (i * cfg.dimX + a) (i * cfg.dimU + b) =
          BdAt env cfg traj DT i a b) ∧
      (∀ a, a < cfg.dimX →
        (generateMPCMatrix env cfg traj DT).Wex (i * cfg.dimX + a) 0 =
          (∑ k ∈ Finset.range cfg.dimX, AdAt env cfg traj DT i a k *
            (generateMPCMatrix env cfg traj DT).Wex ((i - 1) * cfg.dimX + k) 0) +
          WdAt env cfg traj DT i a 0)) := by
  obtain ⟨hA, hB, hW, -⟩ := generateMPCMatrix_core_fields env cfg traj DT
  rw [hA, hB, hW]
  constructor
  · intro hN
    have hstab := genLoop_rows_stable env cfg traj DT 1 cfg.prediction_horizon hN
    refine ⟨?_, ?_, ?_⟩
    · intro a b ha hb
      have h1 : a < 1 * cfg.dimX := by
        rw [one_mul]
        exact ha
      obtain ⟨ea, -, -⟩ := hstab a b h1
      rw [ea]
      exact (genStep_zero_AW env cfg traj DT (genLoop env cfg traj DT 0) a b ha).1 hb
    · intro a b ha hb
      have h1 : a < 1 * cfg.dimX := by
        rw [one_mul]
        exact ha
      obtain ⟨-, eb, -⟩ := hstab a b h1
      rw [eb]
      have hbb := genStep_Bex_own_block env cfg traj DT 0
        (genLoop env cfg traj DT 0) a b ha hb
      simpa using hbb
    · intro a ha
      have h1 : a < 1 * cfg.dimX := by
        rw [one_mul]
        exact ha
      obtain ⟨-, -, ew⟩ := hstab a 0 h1
      rw [ew]
      exact (genStep_zero_AW env cfg traj DT (genLoop env cfg traj DT 0) a 0 ha).2
  · intro i h1 hiN
    have h0 : i ≠ 0 := by omega
    have hrowe : ∀ a, a < cfg.dimX → i * cfg.dimX + a < (i + 1) * cfg.dimX := by
      intro a ha
      rw [Nat.succ_mul]
      omega
    have hprev : ∀ k, k < cfg.dimX → (i - 1) * cfg.dimX + k < i * cfg.dimX := by
      intro k hk
      have e2 : i - 1 + 1 = i := by omega
      have e1 : (i - 1) * cfg.dimX + cfg.dimX = i * cfg.dimX := by
        calc (i - 1) * cfg.dimX + cfg.dimX = (i - 1 + 1) * cfg.dimX := by
              rw [Nat.succ_mul]
          _ = i * cfg.dimX := by rw [e2]
      omega
    have hstabS := genLoop_rows_stable env cfg traj DT (i + 1)
      cfg.prediction_horizon (by omega)
    have hstabP := genLoop_rows_stable env cfg traj DT i
      cfg.prediction_horizon (by omega)
    refine ⟨?_, ?_, ?_, ?_⟩
    · intro a b ha hb
      obtain ⟨ea, -, -⟩ := hstabS (i * cfg.dimX + a) b (hrowe a ha)
      rw [ea]
      rw [show genLoop env cfg traj DT (i + 1) =
        genStep env cfg traj DT i (genLoop env cfg traj DT i) from rfl]
      rw [genStep_Aex_block env cfg traj DT i h0 (genLoop env cfg traj DT i) a b ha hb]
      refine Finset.sum_congr rfl (fun k hk => ?_)
      obtain ⟨ea2, -, -⟩ := hstabP ((i - 1) * cfg.dimX + k) b
        (hprev k (Finset.mem_range.mp hk))
      rw [ea2]
    · intro j a b hj ha hb
      obtain ⟨-, eb, -⟩ := hstabS (i * cfg.dimX + a) (j * cfg.dimU + b) (hrowe a ha)
      rw [eb]
      rw [show genLoop env cfg traj DT (i + 1) =
        genStep env cfg traj DT i (genLoop env cfg traj DT i) from rfl]
      rw [genStep_Bex_prev_block env cfg traj DT i h0 (genLoop env cfg traj DT i)
        j a b hj ha hb]
      refine Finset.sum_congr rfl (fun k hk => ?_)
      obtain ⟨-, eb2, -⟩ := hstabP ((i - 1) * cfg.dimX + k) (j * cfg.dimU + b)
        (hprev k (Finset.mem_range.mp hk))
      rw [eb2]
    · intro a b ha hb
      obtain ⟨-, eb, -⟩ := hstabS (i * cfg.dimX + a) (i * cfg.dimU + b) (hrowe a ha)
      rw [eb]
      exact genStep_Bex_own_block env cfg traj DT i (genLoop env cfg traj DT i) a b ha hb
    · intro a ha
      obtain ⟨-, -, ew⟩ := hstabS (i * cfg.dimX + a) 0 (hrowe a ha)
      rw [ew]
      rw [show genLoop env cfg traj DT (i + 1) =
        genStep env cfg traj DT i (genLoop env cfg traj DT i) from rfl]
      rw [genStep_Wex_block env cfg traj DT i h0 (genLoop env cfg traj DT i) a ha]
      congr 1
      refine Finset.sum_congr rfl (fun k hk => ?_)
      obtain ⟨-, -, ew2⟩ := hstabP ((i - 1) * cfg.dimX + k) 0
        (hprev k (Finset.mem_range.mp hk))
      rw [ew2]

/-- C8: for every horizon step, the feed-forward reference steering input
stored in `Uref_ex` is exactly zero whenever the magnitude of the model's
reference input computed from the smoothed curvature is below the
configured dead-band threshold given in degrees and converted to radians. -/
theorem feedforward_deadband_zero (env : MPCEnv) (cfg : MPCCfg)
    (traj : MPCTraj) (DT : ℚ) (hnu : 1 ≤ cfg.dimU) (i : ℕ)
    (hiN : i < cfg.prediction_horizon)
    (hdb : |urefRawAt env cfg traj i| < env.deg2rad cfg.zero_ff_steer_deg) :
    (generateMPCMatrix env cfg traj DT).Uref_ex (i * cfg.dimU) 0 = 0 := by
  obtain ⟨-, -, -, hU⟩ := generateMPCMatrix_core_fields env cfg traj DT
  rw [hU]
  have hrow : i * cfg.dimU < (i + 1) * cfg.dimU := by
    rw [Nat.succ_mul]
    omega
  rw [genLoop_uref_stable env cfg traj DT (i + 1) cfg.prediction_horizon
    (by omega) (i * cfg.dimU) 0 hrow]
  exact genStep_uref_own env cfg traj DT i (genLoop env cfg traj DT i) hnu hdb

/-- Witness for C7 at horizon step 1 of a concrete 2-step configuration. -/
theorem generateMPCMatrix_stacked_recursion_witness :
    (generateMPCMatrix env7 cfgW trajW 1).Aex (1 * cfgW.dimX + 0) 0 =
      ∑ k ∈ Finset.range cfgW.dimX, AdAt env7 cfgW trajW 1 1 0 k *
        (generateMPCMatrix env7 cfgW trajW 1).Aex ((1 - 1) * cfgW.dimX + k) 0 :=
  ((generateMPCMatrix_stacked_recursion env7 cfgW trajW 1).2 1 le_rfl
      (by norm_num [cfgW])).1 0 0 (by norm_num [cfgW]) (by norm_num [cfgW])

/-- Witness for C8 at horizon step 1 of a concrete configuration whose
model reference input 0 lies inside the 1-degree dead-band. -/
theorem feedforward_deadband_zero_witness :
    (generateMPCMatrix envBase cfg8 trajW 1).Uref_ex (1 * cfg8.dimU) 0 = 0 :=
  feedforward_deadband_zero envBase cfg8 trajW 1 (by norm_num [cfg8, cfgW]) 1
    (by norm_num [cfg8, cfgW])
    (by norm_num [urefRawAt, envBase, cfg8, cfgW, zeroMat, signVx])

end MPCV
